import Mathlib

/-!
Verification development for the email-ingestion core of the app-finzas
repository (`backend/expenses/email_ingest.py` and
`backend/expenses/email_parsers/`).

The Python code is shallowly embedded:

* `decimal.Decimal` values are embedded as a sign / coefficient / exponent
  triple (`Dec`), covering the plain decimal literals the parsers produce.
* The regular expressions used by the parsers are embedded through a small
  backtracking matcher (`RE`, `reM`, `reSearch`) that follows Python `re`
  semantics (leftmost match, greedy / lazy quantifier preference, ordered
  alternation, capture groups).
* The external `mailparser` library is the input boundary: a `Mail` record
  holds the fields the parsers read from `mailparser.parse_from_bytes`.
* The Django ORM is the persistence boundary: the database is a record of
  lists (`DB`), `objects.create` appends, `objects.filter(...).exists()` is a
  list scan, and `transaction.atomic` restores the pre-block state when the
  block fails.  Failure of fallible `create` calls is injected through an
  oracle in `Env`, and exceptions are values of `PyErr` threaded in `Except`.
* Python stdlib helpers that the core merely calls (`email.utils.parseaddr`,
  `email.header.decode_header`, `date.today`, `timezone.now`) are opaque
  parameters of `Env`.
* `PendingTransaction.payload` is a `JSONField` with the default encoder, so
  `PendingTransaction.objects.create(payload=...)` serializes the payload
  with plain `json.dumps`, which raises `TypeError` at the first `Decimal`
  or `datetime.date` value; `payloadJsonErr` / `pendingCreate` model this,
  and the error is not an `IntegrityError`, so it escapes the handlers.

String helpers model the exact Python operations used (`.lower()`,
`.strip()`, `in`, `.split()`, `.splitlines()`, `.replace`) on the ASCII
subset exercised by the code.
-/

/-! ## Python string primitives -/

/-- Python `needle in hay` substring test. -/
def strIn (needle hay : String) : Bool :=
  hay.data.tails.any (fun t => needle.data.isPrefixOf t)

/-- Case-insensitive substring test (`needle in hay.lower()` after lowering both). -/
def strInCI (needle hay : String) : Bool :=
  strIn (needle.map Char.toLower) (hay.map Char.toLower)

/-- Python `str.lower()` (ASCII subset). -/
def pyLower (s : String) : String := String.mk (s.data.map Char.toLower)

/-- Python `str.upper()` (ASCII subset). -/
def pyUpper (s : String) : String := String.mk (s.data.map Char.toUpper)

/-- Python `str.strip()`: whitespace off both ends. -/
def pyStrip (s : String) : String :=
  String.mk (((s.data.dropWhile Char.isWhitespace).reverse.dropWhile
    Char.isWhitespace).reverse)

/-- Python `s[:n]` / list truncation on strings. -/
def strTake (s : String) (n : Nat) : String := String.mk (s.data.take n)

/-- `str.replace(pat, rep)` on character lists: leftmost, non-overlapping,
all occurrences.  The fuel is the input length (each step consumes at least
one character; the patterns used are never empty). -/
def replaceAux (pat rep : List Char) : Nat → List Char → List Char
  | 0, s => s
  | _ + 1, [] => []
  | f + 1, c :: rest =>
    if pat.isPrefixOf (c :: rest) then
      rep ++ replaceAux pat rep f ((c :: rest).drop pat.length)
    else c :: replaceAux pat rep f rest

/-- Python `str.replace` (for non-empty patterns). -/
def strReplace (s pat rep : String) : String :=
  if pat = "" then s
  else String.mk (replaceAux pat.data rep.data s.data.length s.data)

/-- Split a character list at every separator occurrence (keeping empties),
like `str.split(sep)` for a one-character separator. -/
def splitOnChar (sep : Char) (cs : List Char) : List (List Char) :=
  cs.foldr
    (fun c acc =>
      match acc with
      | [] => [[c]]
      | h :: t => if c = sep then [] :: h :: t else (c :: h) :: t)
    [[]]

/-- Split on a character class (helper for whitespace splitting). -/
def splitOnPred (p : Char → Bool) (cs : List Char) : List (List Char) :=
  cs.foldr
    (fun c acc =>
      match acc with
      | [] => [[c]]
      | h :: t => if p c then [] :: h :: t else (c :: h) :: t)
    [[]]

/-- Join character lists with a separator (`sep.join`). -/
def joinSep (sep : List Char) : List (List Char) → List Char
  | [] => []
  | [x] => x
  | x :: y :: rest => x ++ sep ++ joinSep sep (y :: rest)

/-- `"\n".join(strings)`. -/
def strJoinNL (l : List String) : String :=
  String.mk (joinSep ['\n'] (l.map String.data))

/-- Python `x or default` for an optional string (`None` and `""` are falsy). -/
def pyOr (a : Option String) (b : String) : String :=
  match a with
  | none => b
  | some s => if s = "" then b else s

/-- Python `a or b` for two strings (`""` is falsy). -/
def pyOrS (a b : String) : String := if a = "" then b else a

/-- Python `str.split()` with no argument: split on whitespace runs, no empties. -/
def pySplitWs (s : String) : List String :=
  ((splitOnPred Char.isWhitespace s.data).map String.mk).filter (fun w => w ≠ "")

/-- Python `str.splitlines()` restricted to `\n` terminators (the only line
breaks occurring in the embedded bodies): no trailing empty line. -/
def pySplitlines (s : String) : List String :=
  if s = "" then []
  else
    let parts := (splitOnChar '\n' s.data).map String.mk
    match s.data.reverse with
    | '\n' :: _ => parts.dropLast
    | _ => parts

/-- Python `str(x)` for an optional string (`None` prints as `"None"`). -/
def pyStrOptS (a : Option String) : String :=
  match a with
  | none => "None"
  | some s => s

/-! ## Embedded `decimal.Decimal` (plain finite literals, no exponent forms) -/

/-- A finite `decimal.Decimal` value: sign, coefficient, exponent.  The
parsers only build decimals from plain literals (no `E` notation, at most
28 significant digits), which this subset covers exactly. -/
structure Dec where
  neg : Bool
  coeff : Nat
  exp : Int
deriving Repr, DecidableEq

/-- Rational value of a `Dec`. -/
def Dec.toRat (d : Dec) : Rat :=
  let mag : Rat :=
    if 0 ≤ d.exp then (d.coeff : Rat) * (10 : Rat) ^ d.exp.toNat
    else (d.coeff : Rat) / (10 : Rat) ^ (-d.exp).toNat
  if d.neg then -mag else mag

/-- Digits of a char list interpreted as a `Nat` (helper for the parser). -/
def natOfDigits (cs : List Char) : Nat :=
  cs.foldl (fun a c => a * 10 + (c.toNat - 48)) 0

/-- Decimal digits of a natural number (fuel-based, kernel-reducible). -/
def natDigitsRev : Nat → Nat → List Char
  | 0, _ => []
  | f + 1, n =>
    if n < 10 then [Char.ofNat (48 + n)]
    else Char.ofNat (48 + n % 10) :: natDigitsRev f (n / 10)

/-- `str(n)` for natural numbers. -/
def natRepr (n : Nat) : String := String.mk ((natDigitsRev (n + 1) n).reverse)

/-- `Decimal(s)` for strings of the form `[+|-] digits [. digits]` or
`[+|-] . digits` (the shapes produced by the embedded regexes); any other
string raises `InvalidOperation`, embedded as `none`. -/
def Dec.parse (s : String) : Option Dec :=
  let cs := s.data
  let (sgn, rest) :=
    match cs with
    | '-' :: r => (true, r)
    | '+' :: r => (false, r)
    | r => (false, r)
  let intPart := rest.takeWhile Char.isDigit
  let afterInt := rest.drop intPart.length
  match afterInt with
  | [] =>
    if intPart = [] then none
    else some ⟨sgn, natOfDigits intPart, 0⟩
  | '.' :: fr =>
    let fracPart := fr.takeWhile Char.isDigit
    if fr.drop fracPart.length ≠ [] then none
    else if intPart = [] ∧ fracPart = [] then none
    else some ⟨sgn, natOfDigits (intPart ++ fracPart), -(fracPart.length : Int)⟩
  | _ => none

/-- `str(Decimal)` for non-positive exponents (scientific notation never
arises in the embedded values). -/
def Dec.str (d : Dec) : String :=
  let ds := (natRepr d.coeff).data
  let e := (-d.exp).toNat
  let body :=
    if e = 0 then ds
    else if ds.length > e then
      ds.take (ds.length - e) ++ '.' :: ds.drop (ds.length - e)
    else
      '0' :: '.' :: (List.replicate (e - ds.length) '0' ++ ds)
  (if d.neg then "-" else "") ++ String.mk body

/-- Python `str(x)` for an optional decimal (`None` prints as `"None"`). -/
def pyStrOptDec (a : Option Dec) : String :=
  match a with
  | none => "None"
  | some d => d.str

/-- `Decimal * Decimal` (exact; all embedded products stay well inside the
28-digit context). -/
def Dec.mul (a b : Dec) : Dec :=
  ⟨xor a.neg b.neg, a.coeff * b.coeff, a.exp + b.exp⟩

/-- Unary minus on `Decimal`. -/
def Dec.negate (d : Dec) : Dec := ⟨!d.neg, d.coeff, d.exp⟩

/-- Python truthiness of a `Decimal` (`Decimal("0.00")` is falsy). -/
def Dec.truthy (d : Dec) : Bool := d.coeff ≠ 0

/-- Python truthiness of an optional `Decimal`. -/
def decOptTruthy (a : Option Dec) : Bool :=
  match a with
  | none => false
  | some d => d.truthy

/-! ## A small backtracking regular-expression matcher

The engine follows Python `re` semantics on the fragment the parsers use:
ordered alternation, greedy and lazy repetition with full backtracking,
capture groups returning the most recent capture, `re.search` scanning for
the leftmost matching start position, `re.match` anchoring at the start.
Recursion is bounded by an explicit fuel that dominates the backtracking
depth on every input (each level of nesting either enters a strict
subpattern or consumes input consumed by a repetition body). -/

/-- Regular-expression syntax for the patterns appearing in the parsers. -/
inductive RE where
  | cls (p : Char → Bool)
  | lit (s : List Char)
  | ilit (s : List Char)
  | eps
  | eos
  | seq (a b : RE)
  | alt (a b : RE)
  | star (r : RE)
  | lazystar (r : RE)
  | opt (r : RE)
  | grp (n : Nat) (r : RE)

/-- Structural size, used to budget the matcher's fuel. -/
def RE.size : RE → Nat
  | .cls _ => 1
  | .lit s => s.length + 1
  | .ilit s => s.length + 1
  | .eps => 1
  | .eos => 1
  | .seq a b => a.size + b.size + 1
  | .alt a b => a.size + b.size + 1
  | .star r => r.size + 1
  | .lazystar r => r.size + 1
  | .opt r => r.size + 1
  | .grp _ r => r.size + 1

/-- Captured groups: group index paired with the captured characters.
Lookups take the most recently recorded capture. -/
abbrev Caps := List (Nat × List Char)

/-- Case-insensitive prefix test for `ilit`. -/
def iPre (l s : List Char) : Bool :=
  (l.map Char.toLower).isPrefixOf (s.map Char.toLower)

/-- The backtracking matcher in continuation-passing style.  `k` receives the
unconsumed input and the captures; the first continuation success wins, which
yields exactly the ordered-backtracking preference of Python `re`. -/
def reM (fuel : Nat) (re : RE) (s : List Char) (caps : Caps)
    (k : List Char → Caps → Option Caps) : Option Caps :=
  match fuel with
  | 0 => none
  | f + 1 =>
    match re with
    | .cls p =>
      match s with
      | [] => none
      | c :: rest => if p c then k rest caps else none
    | .lit l => if l.isPrefixOf s then k (s.drop l.length) caps else none
    | .ilit l => if iPre l s then k (s.drop l.length) caps else none
    | .eps => k s caps
    | .eos => match s with | [] => k s caps | _ :: _ => none
    | .seq a b => reM f a s caps (fun s1 c1 => reM f b s1 c1 k)
    | .alt a b =>
      match reM f a s caps k with
      | some r => some r
      | none => reM f b s caps k
    | .star r =>
      match reM f r s caps (fun s1 c1 => reM f (.star r) s1 c1 k) with
      | some out => some out
      | none => k s caps
    | .lazystar r =>
      match k s caps with
      | some out => some out
      | none => reM f r s caps (fun s1 c1 => reM f (.lazystar r) s1 c1 k)
    | .opt r =>
      match reM f r s caps k with
      | some out => some out
      | none => k s caps
    | .grp n r =>
      reM f r s caps (fun s1 c1 => k s1 ((n, s.take (s.length - s1.length)) :: c1))

/-- Fuel sufficient for matching `re` against `s` with full backtracking. -/
def reFuel (re : RE) (s : List Char) : Nat :=
  (RE.size re + 2) * (s.length + 3)

/-- Anchored match at the start of the input (Python `pattern.match`). -/
def reMatchStart (re : RE) (s : String) : Option Caps :=
  reM (reFuel re s.data) re s.data [] (fun _ c => some c)

/-- `re.search`: leftmost start position admitting a match. -/
def reSearchAux (re : RE) : List Char → Option Caps
  | [] => reM (reFuel re []) re [] [] (fun _ c => some c)
  | c :: rest =>
    match reM (reFuel re (c :: rest)) re (c :: rest) [] (fun _ c => some c) with
    | some out => some out
    | none => reSearchAux re rest

/-- `re.search` over a string. -/
def reSearch (re : RE) (s : String) : Option Caps :=
  reSearchAux re s.data

/-- `match.group(n)` on a capture list. -/
def capGet (caps : Caps) (n : Nat) : Option String :=
  (caps.find? (fun p => p.1 = n)).map (fun p => String.mk p.2)

/-- `r+` as `r r*` (greedy). -/
def RE.plus (r : RE) : RE := .seq r (.star r)

/-- `r+?` as `r r*?` (lazy). -/
def RE.lazyplus (r : RE) : RE := .seq r (.lazystar r)

/-- `\d` (ASCII). -/
def reDigit : RE := .cls Char.isDigit

/-- `\s` (ASCII whitespace subset). -/
def reWs : RE := .cls Char.isWhitespace

/-- `.` outside DOTALL: any character but a newline. -/
def reDot : RE := .cls (fun c => c ≠ '\n')

/-- `.` under DOTALL: any character. -/
def reAny : RE := .cls (fun _ => true)

/-- Exact repetition `r{n}`. -/
def RE.rep (r : RE) : Nat → RE
  | 0 => .eps
  | n + 1 => .seq r (RE.rep r n)

/-! ## HTML stripping and field extraction (shared parser helpers) -/

/-- One pass of `re.sub(r"<[^>]+>", rep, _)`: each `<`…`>` span with a
non-empty interior is replaced by `rep`; a `<` with no such closing `>` is
kept and scanning continues at the next character. -/
def stripTagsAux (rep : List Char) : Nat → List Char → List Char
  | 0, s => s
  | _ + 1, [] => []
  | f + 1, c :: rest =>
    if c = '<' then
      let gap := rest.takeWhile (fun d => d ≠ '>')
      match rest.drop gap.length with
      | '>' :: rest2 =>
        if gap = [] then c :: stripTagsAux rep f rest
        else rep ++ stripTagsAux rep f rest2
      | _ => c :: stripTagsAux rep f rest
    else c :: stripTagsAux rep f rest

/-- `re.sub(r"<[^>]+>", rep, s)`. -/
def pySubTags (rep s : String) : String :=
  String.mk (stripTagsAux rep.data s.data.length s.data)

/-- `re.sub(r"\s+", " ", s)`: collapse whitespace runs to single spaces. -/
def collapseWsAux : Nat → List Char → List Char
  | 0, s => s
  | _ + 1, [] => []
  | f + 1, c :: rest =>
    if c.isWhitespace then ' ' :: collapseWsAux f (rest.dropWhile Char.isWhitespace)
    else c :: collapseWsAux f rest

/-- Whitespace-run collapse over a string. -/
def collapseWs (s : String) : String :=
  String.mk (collapseWsAux s.data.length s.data)

/-- The entity replacements shared by `_html_to_text` and `_clean_value`. -/
def entityReplace (s : String) : String :=
  strReplace (strReplace (strReplace (strReplace s "&nbsp;" " ") "&amp;" "&") "&lt;" "<")
    "&gt;" ">" 

/-- `_html_to_text`: strip tags, unescape entities, collapse whitespace, strip. -/
def html_to_text (html : String) : String :=
  if html = "" then ""
  else pyStrip (collapseWs (entityReplace (pySubTags " " html)))

/-- `_clean_value` (visa.py / alignet.py): same chain as `_html_to_text`. -/
def clean_value (val : String) : String :=
  if val = "" then ""
  else pyStrip (collapseWs (entityReplace (pySubTags " " val)))

/-- The pattern `^{label}\s*:\s*(.+)$` used by `_extract_field` (IGNORECASE). -/
def extractFieldRE (label : String) : RE :=
  .seq (.ilit label.data)
    (.seq (.star reWs)
      (.seq (.lit [':'])
        (.seq (.star reWs)
          (.seq (.grp 1 (RE.plus reDot)) .eos))))

/-- `_extract_field` (visa.py / alignet.py): first line whose stripped text
matches `label\s*:\s*(.+)`, cleaned with `_clean_value`. -/
def extract_field (text label : String) : Option String :=
  (pySplitlines text).findSome? (fun line =>
    (reMatchStart (extractFieldRE label) (pyStrip line)).bind (fun caps =>
      (capGet caps 1).map clean_value))

/-! ## The regex patterns of the individual parsers -/

/-- `[-+]?\d+[.,]?\d*` (the number shape in visa.py). -/
def reNum : RE :=
  .seq (.opt (.cls (fun c => c = '-' ∨ c = '+')))
    (.seq (RE.plus reDigit)
      (.seq (.opt (.cls (fun c => c = '.' ∨ c = ',')))
        (.star reDigit)))

/-- visa.py: `([-+]?\d+[.,]?\d*)\s*\(aproximadamente\s+([-+]?\d+[.,]?\d*)\s+USD\)`
with IGNORECASE. -/
def approxRE : RE :=
  .seq (.grp 1 reNum)
    (.seq (.star reWs)
      (.seq (.ilit "(aproximadamente".data)
        (.seq (RE.plus reWs)
          (.seq (.grp 2 reNum)
            (.seq (RE.plus reWs) (.ilit "USD)".data))))))

/-- visa.py fallback: `[-+]?\d+[\.,]?\d*` taken as `group(0)`. -/
def numSearchRE : RE := .grp 0 reNum

/-- `(?:<[^>]*>)` as used inside the chase deposit pattern. -/
def tagRE : RE := .seq (.lit ['<']) (.seq (.star (.cls (fun c => c ≠ '>'))) (.lit ['>']))

/-- `[\d,]+(?:\.\d{2})?` (chase amounts). -/
def moneyRE : RE :=
  .seq (RE.plus (.cls (fun c => c.isDigit ∨ c = ',')))
    (.opt (.seq (.lit ['.']) (.seq reDigit reDigit)))

/-- chase.py deposit pattern:
`You have a direct deposit of\s*(?:<[^>]*>)?\$?\s*([\d,\.]+)(?:<[^>]*>)?` (IGNORECASE). -/
def depositRE : RE :=
  .seq (.ilit "You have a direct deposit of".data)
    (.seq (.star reWs)
      (.seq (.opt tagRE)
        (.seq (.opt (.lit ['$']))
          (.seq (.star reWs)
            (.seq (.grp 1 (RE.plus (.cls (fun c => c.isDigit ∨ c = ',' ∨ c = '.'))))
              (.opt tagRE))))))

/-- chase.py payment pattern:
`Your bill payment of \$([\d,]+(?:\.\d{2})?)\s+to\s+([^\n<]+)` (IGNORECASE). -/
def paymentRE : RE :=
  .seq (.ilit "Your bill payment of ".data)
    (.seq (.lit ['$'])
      (.seq (.grp 1 moneyRE)
        (.seq (RE.plus reWs)
          (.seq (.ilit "to".data)
            (.seq (RE.plus reWs)
              (.grp 2 (RE.plus (.cls (fun c => c ≠ '\n' ∧ c ≠ '<')))))))))

/-- chase.py generic pattern: `\$?([\d,]+(?:\.\d{2})?)`. -/
def genericAmountRE : RE := .seq (.opt (.lit ['$'])) (.grp 1 moneyRE)

/-- `(\d+\.?\d*|\.\d+)` (ibkr quantity / price). -/
def qtyRE : RE :=
  .alt (.seq (RE.plus reDigit) (.seq (.opt (.lit ['.'])) (.star reDigit)))
    (.seq (.lit ['.']) (RE.plus reDigit))

/-- `[A-Z0-9]+(?:\s+[A-Z]+)*` under IGNORECASE (ibkr symbol). -/
def symRE : RE :=
  .seq (RE.plus (.cls (fun c => c.isAlpha ∨ c.isDigit)))
    (.star (.seq (RE.plus reWs) (RE.plus (.cls Char.isAlpha))))

/-- ibkr.py subject pattern:
`(BOUGHT|SOLD)\s+(\d+\.?\d*|\.\d+)\s+([A-Z0-9]+(?:\s+[A-Z]+)*)\s+@\s+(\d+\.?\d*|\.\d+)`
with IGNORECASE. -/
def ibkrRE : RE :=
  .seq (.grp 1 (.alt (.ilit "BOUGHT".data) (.ilit "SOLD".data)))
    (.seq (RE.plus reWs)
      (.seq (.grp 2 qtyRE)
        (.seq (RE.plus reWs)
          (.seq (.grp 3 symRE)
            (.seq (RE.plus reWs)
              (.seq (.lit ['@'])
                (.seq (RE.plus reWs) (.grp 4 qtyRE))))))))

/-- alignet.py masked card pattern `(\d{4})\*+(\d{4})`. -/
def cardRE : RE :=
  .seq (.grp 1 (RE.rep reDigit 4))
    (.seq (RE.plus (.lit ['*'])) (.grp 2 (RE.rep reDigit 4)))

/-- alignet.py card pattern without groups (`\d{4}\*+\d{4}`), used by the
merchant-position heuristic. -/
def cardPlainRE : RE :=
  .seq (RE.rep reDigit 4) (.seq (RE.plus (.lit ['*'])) (RE.rep reDigit 4))

/-- Ordered alternation over a list of literals. -/
def altChain (l : List RE) : RE :=
  match l with
  | [] => .eps
  | [r] => r
  | r :: rest => .alt r (altChain rest)

/-- alignet.py same-line pattern
`^(USD|UYU|EUR|UYS|ARS|BRL|CLP|PEN)\s+(\d+(?:[.,]\d{2})?)\s*$` (IGNORECASE). -/
def curAmtRE : RE :=
  .seq (.grp 1 (altChain (["USD", "UYU", "EUR", "UYS", "ARS", "BRL", "CLP", "PEN"].map
      (fun c => RE.ilit c.data))))
    (.seq (RE.plus reWs)
      (.seq (.grp 2 (.seq (RE.plus reDigit)
          (.opt (.seq (.cls (fun c => c = '.' ∨ c = ','))
            (.seq reDigit reDigit)))))
        (.seq (.star reWs) .eos)))

/-- midinero.py `Fecha y hora.*?<b>([^<]+)</b>` (DOTALL). -/
def fechaHoraRE : RE :=
  .seq (.lit "Fecha y hora".data)
    (.seq (.lazystar reAny)
      (.seq (.lit "<b>".data)
        (.seq (.grp 1 (RE.plus (.cls (fun c => c ≠ '<')))) (.lit "</b>".data))))

/-- midinero.py `Comercio.*?<b>([^<]+)</b>` (DOTALL). -/
def comercioHtmlRE : RE :=
  .seq (.lit "Comercio".data)
    (.seq (.lazystar reAny)
      (.seq (.lit "<b>".data)
        (.seq (.grp 1 (RE.plus (.cls (fun c => c ≠ '<')))) (.lit "</b>".data))))

/-- midinero.py `N[^<]*cuenta.*?<b>([^<]+)</b>` (DOTALL). -/
def cuentaConsumoRE : RE :=
  .seq (.lit ['N'])
    (.seq (.star (.cls (fun c => c ≠ '<')))
      (.seq (.lit "cuenta".data)
        (.seq (.lazystar reAny)
          (.seq (.lit "<b>".data)
            (.seq (.grp 1 (RE.plus (.cls (fun c => c ≠ '<')))) (.lit "</b>".data))))))

/-- midinero.py `Cuenta</div>.*?<b>([0-9]{6,})</b>` (DOTALL). -/
def cuentaReloadRE : RE :=
  .seq (.lit "Cuenta</div>".data)
    (.seq (.lazystar reAny)
      (.seq (.lit "<b>".data)
        (.seq (.grp 1 (.seq (RE.rep reDigit 6) (.star reDigit))) (.lit "</b>".data))))

/-- midinero.py `Moneda.*?<b>([^<]+)</b>` (DOTALL). -/
def monedaHtmlRE : RE :=
  .seq (.lit "Moneda".data)
    (.seq (.lazystar reAny)
      (.seq (.lit "<b>".data)
        (.seq (.grp 1 (RE.plus (.cls (fun c => c ≠ '<')))) (.lit "</b>".data))))

/-- midinero.py `Total Pesos.*?\$\s*([\d.,]+)` (DOTALL). -/
def totalPesosRE : RE :=
  .seq (.lit "Total Pesos".data)
    (.seq (.lazystar reAny)
      (.seq (.lit ['$'])
        (.seq (.star reWs)
          (.grp 1 (RE.plus (.cls (fun c => c.isDigit ∨ c = '.' ∨ c = ',')))))))

/-- midinero.py `Enviada.*?<b>([^<]+)</b>` (DOTALL). -/
def enviadaRE : RE :=
  .seq (.lit "Enviada".data)
    (.seq (.lazystar reAny)
      (.seq (.lit "<b>".data)
        (.seq (.grp 1 (RE.plus (.cls (fun c => c ≠ '<')))) (.lit "</b>".data))))

/-- midinero.py `Cuenta origen.*?([0-9]{6,})` (DOTALL). -/
def cuentaOrigenRE : RE :=
  .seq (.lit "Cuenta origen".data)
    (.seq (.lazystar reAny)
      (.grp 1 (.seq (RE.rep reDigit 6) (.star reDigit))))

/-- midinero.py `Instituci(?:&oacute;|ó)n destino.*?<b>([^<]+)</b>` (DOTALL). -/
def institucionRE : RE :=
  .seq (.lit "Instituci".data)
    (.seq (.alt (.lit "&oacute;".data) (.lit "ó".data))
      (.seq (.lit "n destino".data)
        (.seq (.lazystar reAny)
          (.seq (.lit "<b>".data)
            (.seq (.grp 1 (RE.plus (.cls (fun c => c ≠ '<')))) (.lit "</b>".data))))))

/-! ## Exceptions, dates, and the mail-parser boundary -/

/-- Embedded Python exceptions.  `IntegrityError` is distinguished because
the handlers catch exactly that class; everything else propagates to the
batch driver. -/
inductive PyErr where
  | integrity (msg : String)
  | other (kind msg : String)
deriving Repr, DecidableEq

/-- `f"{type(exc).__name__}: {str(exc)}"` as written by the batch driver. -/
def PyErr.text : PyErr → String
  | .integrity m => "IntegrityError: " ++ m
  | .other k m => k ++ ": " ++ m

/-- A calendar date (`datetime.date`). -/
structure Date where
  year : Nat
  month : Nat
  day : Nat
deriving Repr, DecidableEq

/-- Zero-padding to two digits. -/
def pad2 (n : Nat) : String := if n < 10 then "0" ++ natRepr n else natRepr n

/-- Zero-padding to four digits (years are parsed as exactly four digits). -/
def pad4 (n : Nat) : String :=
  if n < 10 then "000" ++ natRepr n
  else if n < 100 then "00" ++ natRepr n
  else if n < 1000 then "0" ++ natRepr n
  else natRepr n

/-- `date.isoformat()` / `str(date)`. -/
def Date.iso (d : Date) : String :=
  pad4 d.year ++ "-" ++ pad2 d.month ++ "-" ++ pad2 d.day

/-- Python `str(x)` for an optional date (`None` prints as `"None"`). -/
def pyStrOptDate (a : Option Date) : String :=
  match a with
  | none => "None"
  | some d => d.iso

/-- Days in a month, with Gregorian leap years (as validated by `datetime`). -/
def daysInMonth (y m : Nat) : Nat :=
  if m = 2 then (if (y % 4 = 0 ∧ y % 100 ≠ 0) ∨ y % 400 = 0 then 29 else 28)
  else if m = 4 ∨ m = 6 ∨ m = 9 ∨ m = 11 then 30 else 31

/-- All-digit string to `Nat`, `none` otherwise. -/
def parseNatDigits (s : String) : Option Nat :=
  if s ≠ "" ∧ s.data.all Char.isDigit then some (natOfDigits s.data) else none

/-- `datetime.strptime(s, "%d/%m/%Y")`: day and month take one or two
digits, the year exactly four; the calendar is validated. -/
def parseDateDMY (s : String) : Option Date :=
  match (splitOnChar '/' s.data).map String.mk with
  | [ds, ms, ys] =>
    if ds.length = 0 ∨ ds.length > 2 ∨ ms.length = 0 ∨ ms.length > 2 ∨ ys.length ≠ 4 then none
    else
      match parseNatDigits ds, parseNatDigits ms, parseNatDigits ys with
      | some d, some mo, some y =>
        if 1 ≤ y ∧ 1 ≤ d ∧ 1 ≤ mo ∧ mo ≤ 12 ∧ d ≤ daysInMonth y mo then some ⟨y, mo, d⟩
        else none
      | _, _, _ => none
  | _ => none

/-- `strptime(_, "%H:%M")` time component (hour 0–23, minute 0–59). -/
def parseTimeHM (s : String) : Option (Nat × Nat) :=
  match (splitOnChar ':' s.data).map String.mk with
  | [hs, ms] =>
    match parseNatDigits hs, parseNatDigits ms with
    | some h, some mi =>
      if 1 ≤ hs.length ∧ hs.length ≤ 2 ∧ 1 ≤ ms.length ∧ ms.length ≤ 2 ∧ h ≤ 23 ∧ mi ≤ 59
      then some (h, mi) else none
    | _, _ => none
  | _ => none

/-- `datetime.date.fromisoformat` for the `YYYY-MM-DD` strings the midinero
parser itself produces. -/
def parseIsoDate (s : String) : Option Date :=
  match (splitOnChar '-' s.data).map String.mk with
  | [ys, ms, ds] =>
    if ys.length ≠ 4 ∨ ms.length ≠ 2 ∨ ds.length ≠ 2 then none
    else
      match parseNatDigits ys, parseNatDigits ms, parseNatDigits ds with
      | some y, some mo, some d =>
        if 1 ≤ y ∧ 1 ≤ mo ∧ mo ≤ 12 ∧ 1 ≤ d ∧ d ≤ daysInMonth y mo then some ⟨y, mo, d⟩
        else none
      | _, _, _ => none
  | _ => none

/-- The fields the parsers read from `mailparser.parse_from_bytes` (the
external library is the input boundary of the embedding).  The two header
fields stand for `mp.headers.get("Message-Id")` and
`mp.headers.get("Message-ID")`. -/
structure Mail where
  body : Option String
  text_plain : List String
  text_html : List String
  subject : Option String
  message_id : Option String
  headerMessageId : Option String
  headerMessageId2 : Option String
  fromList : List (String × String)
deriving Repr, DecidableEq

/-- The shared body-selection preamble of visa.py / chase.py / alignet.py:
prefer `mp.body`, then joined `text_plain`, then HTML converted to text. -/
def bodyTextOf (m : Mail) : String :=
  let b0 := pyStrip (pyOr m.body "")
  let b1 :=
    if b0 = "" ∧ m.text_plain ≠ [] then pyStrip (strJoinNL m.text_plain)
    else b0
  if b1 = "" ∧ m.text_html ≠ [] then html_to_text (strJoinNL m.text_html)
  else b1

/-- The shared message-id selection: `(mp.message_id or "").strip()`, falling
back to the `Message-Id` / `Message-ID` headers. -/
def messageIdOf (m : Mail) : String :=
  let mid := pyStrip (pyOr m.message_id "")
  if mid = "" then pyOr m.headerMessageId (pyOr m.headerMessageId2 "") else mid

/-- `[addr.lower() for _, addr in (mp.from_ or []) if addr]`. -/
def fromEmailsOf (m : Mail) : List String :=
  m.fromList.filterMap (fun p => if p.2 = "" then none else some (pyLower p.2))

/-! ## The transaction-candidate dictionaries -/

/-- The candidate dictionary produced by the non-trade parsers.  Optional
fields model dictionary keys that a given parser may leave absent
(`dict.get` of an absent key is `none`). -/
structure Parsed where
  description : String
  source : Option String
  currency : String
  amount : Option Dec
  comments : Option String
  external_id : String
  raw_body : Option String
  subject : Option String
  from_emails : Option (List String)
  message_id : Option String
  date_date : Option Date
  date_str : Option String
deriving Repr, DecidableEq

/-- The candidate dictionary produced by `parse_ibkr_trade` (all keys are
always present). -/
structure IbkrParsed where
  symbol : String
  bought : Bool
  amount : Dec
  unitprice : Dec
  total_value : Dec
  external_id : String
  subject : String
  from_emails : List String
  message_id : String
deriving Repr, DecidableEq

/-! ## visa.py -/

/-- `(moneda or "").split()[0].replace('<br>', '').upper()`; indexing an
empty split raises `IndexError`. -/
def visa_currency (moneda : Option String) : Except PyErr String :=
  match pySplitWs (pyOr moneda "") with
  | [] => .error (.other "IndexError" "list index out of range")
  | w :: _ => .ok (pyUpper (strReplace w "<br>" ""))

/-- The approximate-USD search returning both captured numbers. -/
def approxSearch (s : String) : Option (String × String) :=
  (reSearch approxRE s).bind (fun caps =>
    (capGet caps 1).bind (fun a => (capGet caps 2).map (fun b => (a, b))))

/-- The fallback number search, taken as `group(0)`. -/
def numSearch (s : String) : Option String :=
  (reSearch numSearchRE s).bind (fun caps => capGet caps 0)

/-- Lines 87–118 of visa.py: the amount / comment / currency computation from
the raw `Monto` field.  Returns `(amount, comment, currency)`. -/
def visa_amount (montoRaw : Option String) (currency : String) :
    Option Dec × Option String × String :=
  match montoRaw with
  | none => (none, none, currency)
  | some mr =>
    if mr = "" then (none, none, currency)
    else
      let approxStep : Option Dec × Option String × String :=
        match approxSearch mr with
        | some (g1, g2) =>
          if currency ≠ "USD" ∧ currency ≠ "UYU" then
            match Dec.parse (strReplace g1 "," "."), Dec.parse (strReplace g2 "," ".") with
            | some d1, some d2 =>
              (some d2, some ("Original: " ++ d1.str ++ " " ++ currency), "USD")
            | _, _ => (none, none, currency)
          else (none, none, currency)
        | none => (none, none, currency)
      match approxStep with
      | (some a, cmt, cur) => (some a, cmt, cur)
      | (none, _, _) =>
        match numSearch mr with
        | some nm => (Dec.parse (strReplace nm "," "."), none, currency)
        | none => (none, none, currency)

/-- `parse_visa_alert` (visa.py). -/
def parse_visa_alert (m : Mail) : Except PyErr Parsed :=
  let body_text := bodyTextOf m
  let comercio := extract_field body_text "Comercio"
  let tarjeta := extract_field body_text "Tarjeta"
  let moneda := extract_field body_text "Moneda"
  let monto_raw := extract_field body_text "Monto"
  let description := pyOr comercio (pyOr m.subject "")
  let source : Option String :=
    match tarjeta with
    | some t => if t = "" then none else some ("visa:" ++ t)
    | none => none
  match visa_currency moneda with
  | .error e => .error e
  | .ok currency0 =>
    let acc := visa_amount monto_raw currency0
    let amount := acc.1
    let comment := acc.2.1
    let currency := acc.2.2
    let message_id := messageIdOf m
    let external_id := pyOrS message_id
      ("visa:" ++ description ++ ":" ++ pyStrOptS source ++ ":" ++
        pyStrOptDec amount ++ ":" ++ currency)
    .ok {
      description := description
      source := source
      currency := currency
      amount := amount
      comments := some (pyOr comment "")
      external_id := external_id
      raw_body := some body_text
      subject := some (pyOr m.subject "")
      from_emails := some (fromEmailsOf m)
      message_id := some message_id
      date_date := none
      date_str := none
    }

/-! ## chase.py -/

/-- `parse_chase_alert` (chase.py).  Total: every failure path is caught in
the source and leaves `amount = None` / `description = ""`. -/
def parse_chase_alert (m : Mail) : Parsed :=
  let body_text := bodyTextOf m
  let step1 : Option Dec × String :=
    match reSearch depositRE body_text with
    | some caps =>
      match capGet caps 1 with
      | some g =>
        match Dec.parse (strReplace g "," "") with
        | some d => (some d.negate, "DIRECT DEPOSIT")
        | none => (none, "")
      | none => (none, "")
    | none =>
      match reSearch paymentRE body_text with
      | some caps =>
        match capGet caps 1, capGet caps 2 with
        | some g, some merchant =>
          match Dec.parse (strReplace g "," "") with
          | some d => (some d, "BILL PAYMENT: " ++ pyStrip merchant)
          | none => (none, "")
        | _, _ => (none, "")
      | none => (none, "")
  let step2 : Option Dec × String :=
    match step1 with
    | (some d, descr) => (some d, descr)
    | (none, descr) =>
      match reSearch genericAmountRE body_text with
      | some caps =>
        match capGet caps 1 with
        | some g =>
          match Dec.parse (strReplace g "," "") with
          | some d => (some d, pyOr m.subject "Chase transaction")
          | none => (none, descr)
        | none => (none, descr)
      | none => (none, descr)
  let amount := step2.1
  let description := step2.2
  let message_id := messageIdOf m
  let external_id := pyOrS message_id
    ("chase:" ++ description ++ ":" ++ pyStrOptDec amount)
  {
    description := description
    source := some "chase"
    currency := "USD"
    amount := amount
    comments := none
    external_id := external_id
    raw_body := some body_text
    subject := some (pyOr m.subject "")
    from_emails := some (fromEmailsOf m)
    message_id := some message_id
    date_date := none
    date_str := none
  }

/-! ## ibkr.py -/

/-- `parse_ibkr_trade` (ibkr.py): `None` when the subject does not match the
trade pattern or a number fails to convert. -/
def parse_ibkr_trade (m : Mail) : Option IbkrParsed :=
  let subject := pyOr m.subject ""
  match reSearch ibkrRE subject with
  | none => none
  | some caps =>
    match capGet caps 1, capGet caps 2, capGet caps 3, capGet caps 4 with
    | some a1, some a2, some a3, some a4 =>
      let action := pyUpper a1
      let bought := action = "BOUGHT"
      match Dec.parse a2, Dec.parse a4 with
      | some amount, some unitprice =>
        let symbol := pyUpper (pyStrip a3)
        let message_id := messageIdOf m
        let external_id := pyOrS message_id
          ("ibkr:" ++ action ++ ":" ++ symbol ++ ":" ++ amount.str ++ ":" ++ unitprice.str)
        some {
          symbol := symbol
          bought := bought
          amount := amount
          unitprice := unitprice
          total_value := amount.mul unitprice
          external_id := external_id
          subject := subject
          from_emails := fromEmailsOf m
          message_id := message_id
        }
      | _, _ => none
    | _, _, _, _ => none

/-! ## alignet.py -/

/-- `int(s)` restricted to the all-digit strings on which the classifier
invokes it; any other input is an error (the real `int` also accepts signs
and blanks, so proving the embedded guard never errs is sound a fortiori). -/
def pyInt (s : String) : Except PyErr Int :=
  if s ≠ "" ∧ s.data.all Char.isDigit then .ok (natOfDigits s.data : Int)
  else .error (.other "ValueError" "invalid literal for int()")

/-- `_detect_card_type` (alignet.py), with the two `int` conversions
threaded as fallible calls. -/
def detect_card_type (bin_digits : String) : Except PyErr String :=
  if bin_digits = "" ∨ bin_digits.length < 2 then .ok "unknown"
  else
    let digits := String.mk (bin_digits.data.filter Char.isDigit)
    if digits = "" then .ok "unknown"
    else
      let first_digit := String.mk (digits.data.take 1)
      let first_two := if digits.length ≥ 2 then String.mk (digits.data.take 2) else digits
      let first_four := if digits.length ≥ 4 then String.mk (digits.data.take 4) else digits
      if first_digit = "4" then .ok "visa"
      else if first_two ∈ ["51", "52", "53", "54", "55"] then .ok "mastercard"
      else
        let mcRange : Except PyErr (Option String) :=
          if first_four.length = 4 then
            match pyInt first_four with
            | .error e => .error e
            | .ok v => .ok (if 2221 ≤ v ∧ v ≤ 2720 then some "mastercard" else none)
          else .ok none
        match mcRange with
        | .error e => .error e
        | .ok (some r) => .ok r
        | .ok none =>
          if first_two ∈ ["34", "37"] then .ok "amex"
          else if first_four = "6011" then .ok "discover"
          else if first_two = "65" then .ok "discover"
          else if digits.length ≥ 3 ∧
              String.mk (digits.data.take 3) ∈ ["644", "645", "646", "647", "648", "649"] then
            .ok "discover"
          else if digits.length ≥ 6 then
            match pyInt (String.mk (digits.data.take 6)) with
            | .error e => .error e
            | .ok v => .ok (if 622126 ≤ v ∧ v ≤ 622925 then "discover" else "unknown")
          else .ok "unknown"

/-- `_parse_alignet_date`: `strptime("%d/%m/%Y")` on the stripped string. -/
def parse_alignet_date (date_str : String) : Option Date :=
  if date_str = "" then none else parseDateDMY (pyStrip date_str)

/-- The label substrings that disqualify a merchant-candidate line. -/
def alignetLabelWords : List String :=
  ["CLAVE:", "FECHA:", "HORA:", "UYU", "USD", "EUR", "RECUERDE"]

/-- A non-empty candidate line containing none of the label substrings. -/
def alignetCandidateOk (cand : String) : Bool :=
  cand ≠ "" ∧ !(alignetLabelWords.any (fun w => strIn w (pyUpper cand)))

/-- The positional merchant heuristic: after the first masked-card line,
the first acceptable line among the next four. -/
def merchantScan : List String → Option String
  | [] => none
  | line :: rest =>
    if (reSearch cardPlainRE line).isSome then
      ((rest.take 4).map pyStrip).find? alignetCandidateOk
    else merchantScan rest

/-- `re.sub(r"<[^>]+>", "", moneda_line).split()[0].upper()` guarded by the
truthiness of `moneda_line`; an empty split raises `IndexError`. -/
def alignet_label_currency (moneda_line : Option String) : Except PyErr (Option String) :=
  match moneda_line with
  | none => .ok none
  | some ml =>
    if ml = "" then .ok none
    else
      match pySplitWs (pySubTags "" ml) with
      | [] => .error (.other "IndexError" "list index out of range")
      | w :: _ => .ok (some (pyUpper w))

/-- The labelled `Monto` amount (same number regex as visa.py). -/
def alignet_label_amount (monto_raw : Option String) : Option Dec :=
  match monto_raw with
  | none => none
  | some mr =>
    if mr = "" then none
    else
      match numSearch mr with
      | some nm => Dec.parse (strReplace nm "," ".")
      | none => none

/-- The `CCC 1234.56` same-line scan; on a hit the currency is always
assigned and the amount only when `Decimal` succeeds (`except: pass`). -/
def alignet_line_scan : List String → Option (String × Option Dec)
  | [] => none
  | line :: rest =>
    match reMatchStart curAmtRE (pyStrip line) with
    | some caps =>
      match capGet caps 1, capGet caps 2 with
      | some g1, some g2 => some (pyUpper g1, Dec.parse (strReplace g2 "," "."))
      | _, _ => alignet_line_scan rest
    | none => alignet_line_scan rest

/-- Python truthiness of an optional string. -/
def strOptTruthy (a : Option String) : Bool :=
  match a with
  | none => false
  | some s => s ≠ ""

/-- `parse_alignet_alert` (alignet.py). -/
def parse_alignet_alert (m : Mail) : Except PyErr Parsed :=
  let body_text := bodyTextOf m
  let comercio0 := extract_field body_text "Comercio"
  let comercio :=
    match comercio0 with
    | some c => if c = "" then merchantScan (pySplitlines body_text) else some c
    | none => merchantScan (pySplitlines body_text)
  let description := pyOr comercio (pyOr m.subject "Alignet Transaction")
  let cardStep : Except PyErr String :=
    match reSearch cardRE body_text with
    | some caps =>
      match capGet caps 1, capGet caps 2 with
      | some first_four, some last_four =>
        match detect_card_type first_four with
        | .error e => .error e
        | .ok card_type => .ok (card_type ++ ":" ++ last_four)
      | _, _ => .ok "alignet"
    | none => .ok "alignet"
  match cardStep with
  | .error e => .error e
  | .ok source =>
    let moneda_line := extract_field body_text "Moneda"
    let monto_raw := extract_field body_text "Monto"
    match alignet_label_currency moneda_line with
    | .error e => .error e
    | .ok currency0 =>
      let amount0 := alignet_label_amount monto_raw
      let needScan := !(strOptTruthy currency0) ∨ !(decOptTruthy amount0)
      let scanned :=
        if needScan then
          match alignet_line_scan (pySplitlines body_text) with
          | some (c, a) =>
            (some c, match a with | some d => some d | none => amount0)
          | none => (currency0, amount0)
        else (currency0, amount0)
      let currency := scanned.1
      let amount := scanned.2
      let fecha_raw := extract_field body_text "Fecha"
      let transaction_date :=
        match fecha_raw with
        | some f => if f = "" then none else parse_alignet_date f
        | none => none
      let message_id := messageIdOf m
      let external_id :=
        if message_id = "" then
          "alignet:" ++ pyStrOptDate transaction_date ++ ":" ++ source ++ ":" ++
            pyStrOptDec amount ++ ":" ++ pyStrOptS currency
        else message_id
      .ok {
        description := description
        source := some source
        currency := pyOr currency ""
        amount := amount
        comments := none
        external_id := external_id
        raw_body := some body_text
        subject := some (pyOr m.subject "")
        from_emails := some (fromEmailsOf m)
        message_id := some message_id
        date_date := transaction_date
        date_str := none
      }

/-! ## midinero.py -/

/-- `_normalize_currency` (midinero.py). -/
def normalize_currency (currency_text : String) : String :=
  if currency_text = "" then "UYU"
  else
    let text := pyStrip (pyUpper currency_text)
    if text ∈ ["UYU", "USD", "EUR", "BRL"] then text
    else
      let mappings : List (String × String) :=
        [("URUGUAYAN PESOS", "UYU"), ("PESOS URUGUAYOS", "UYU"), ("PESOS", "UYU"),
         ("US DOLLARS", "USD"), ("DOLARES", "USD"), ("DÓLARES", "USD"),
         ("DOLLARS", "USD"), ("EUROS", "EUR"), ("REALES", "BRL")]
      match mappings.find? (fun kv => strIn kv.1 text) with
      | some kv => kv.2
      | none => "UYU"

/-- `_parse_amount` (midinero.py): drop `$` and whitespace, drop the `.`
thousands separators, turn the `,` decimal separator into `.`. -/
def parse_amount (amount_str : String) : Option Dec :=
  if amount_str = "" then none
  else
    let s1 := String.mk (amount_str.data.filter (fun c => ¬(c = '$' ∨ c.isWhitespace)))
    let s2 := strReplace s1 "." ""
    let s3 := strReplace s2 "," "."
    Dec.parse s3

/-- `_parse_date` (midinero.py): `DD/MM/YYYY HH:MM` to an ISO date string. -/
def parse_date_midinero (date_str : String) : Option String :=
  if date_str = "" then none
  else
    match pySplitWs (pyStrip date_str) with
    | dpart :: tpart :: _ =>
      match parseDateDMY dpart, parseTimeHM tpart with
      | some d, some _ => some d.iso
      | _, _ => none
    | _ => none

/-- `x if x else None` composition used for the optional extracted fields. -/
def pyIfTruthy {α : Type} (a : Option String) (f : String → Option α) : Option α :=
  match a with
  | none => none
  | some s => if s = "" then none else f s

/-- `match.group(n).strip() if match else None`. -/
def reGroupStrip (re : RE) (n : Nat) (s : String) : Option String :=
  (reSearch re s).bind (fun caps => (capGet caps n).map pyStrip)

/-- `"\n".join(mp.text_html) if mp.text_html else ""`. -/
def midiHtml (m : Mail) : String :=
  if m.text_html ≠ [] then strJoinNL m.text_html else ""

/-- `parse_midinero_consumption` (midinero.py). -/
def parse_midinero_consumption (m : Mail) : Parsed :=
  let html := midiHtml m
  let fecha_hora := reGroupStrip fechaHoraRE 1 html
  let comercio := reGroupStrip comercioHtmlRE 1 html
  let cuenta := reGroupStrip cuentaConsumoRE 1 html
  let moneda := reGroupStrip monedaHtmlRE 1 html
  let total := reGroupStrip totalPesosRE 1 html
  let date := pyIfTruthy fecha_hora parse_date_midinero
  let amount := pyIfTruthy total parse_amount
  let currency :=
    match moneda with
    | some s => if s = "" then "UYU" else normalize_currency s
    | none => "UYU"
  let message_id := pyOr m.message_id
    ("midinero:consumption:" ++ pyStrOptS date ++ ":" ++ pyStrOptDec amount)
  {
    description := pyOr comercio (pyOr m.subject "Consumo Midinero")
    source := pyIfTruthy cuenta (fun c => some ("midinero:" ++ c))
    currency := currency
    amount := amount
    comments := none
    external_id := message_id
    raw_body := none
    subject := none
    from_emails := none
    message_id := none
    date_date := none
    date_str := date
  }

/-- `parse_midinero_reload` (midinero.py); the reload amount is negated
(treated as income). -/
def parse_midinero_reload (m : Mail) : Parsed :=
  let html := midiHtml m
  let fecha_hora := reGroupStrip fechaHoraRE 1 html
  let cuenta := reGroupStrip cuentaReloadRE 1 html
  let moneda := reGroupStrip monedaHtmlRE 1 html
  let total := reGroupStrip totalPesosRE 1 html
  let date := pyIfTruthy fecha_hora parse_date_midinero
  let amount0 := pyIfTruthy total parse_amount
  let currency :=
    match moneda with
    | some s => if s = "" then "UYU" else normalize_currency s
    | none => "UYU"
  let amount := amount0.map Dec.negate
  let message_id := pyOr m.message_id
    ("midinero:reload:" ++ pyStrOptS date ++ ":" ++ pyStrOptDec amount)
  {
    description := "Recarga Midinero"
    source := pyIfTruthy cuenta (fun c => some ("midinero:" ++ c))
    currency := currency
    amount := amount
    comments := none
    external_id := message_id
    raw_body := none
    subject := none
    from_emails := none
    message_id := none
    date_date := none
    date_str := date
  }

/-- `parse_midinero_transfer` (midinero.py). -/
def parse_midinero_transfer (m : Mail) : Parsed :=
  let html := midiHtml m
  let enviada := reGroupStrip enviadaRE 1 html
  let cuenta_origen := reGroupStrip cuentaOrigenRE 1 html
  let institucion := reGroupStrip institucionRE 1 html
  let moneda := reGroupStrip monedaHtmlRE 1 html
  let total := reGroupStrip totalPesosRE 1 html
  let date := pyIfTruthy enviada parse_date_midinero
  let amount := pyIfTruthy total parse_amount
  let currency :=
    match moneda with
    | some s => if s = "" then "UYU" else normalize_currency s
    | none => "UYU"
  let message_id := pyOr m.message_id
    ("midinero:transfer:" ++ pyStrOptS date ++ ":" ++ pyStrOptDec amount)
  let description :=
    match institucion with
    | some i => if i = "" then "Transferencia Midinero" else "Transferencia a " ++ i
    | none => "Transferencia Midinero"
  {
    description := description
    source := pyIfTruthy cuenta_origen (fun c => some ("midinero:" ++ c))
    currency := currency
    amount := amount
    comments := none
    external_id := message_id
    raw_body := none
    subject := none
    from_emails := none
    message_id := none
    date_date := none
    date_str := date
  }

/-- `_is_midinero_email` (midinero.py): sender address or body mention. -/
def is_midinero_email (m : Mail) : Bool :=
  let from_emails := m.fromList.map (fun p => pyLower p.2)
  if from_emails.contains "noreply@midinero.com.uy" then true
  else
    let body0 := pyOr m.body ""
    let body :=
      if body0 = "" ∧ m.text_html ≠ [] then html_to_text (strJoinNL m.text_html)
      else body0
    strIn "noreply@midinero.com.uy" (pyLower body)

/-- `parse_midinero_alert` (midinero.py): detection plus subject sub-routing. -/
def parse_midinero_alert (m : Mail) : Option Parsed :=
  if !(is_midinero_email m) then none
  else
    let subject := pyStrip (pyOr m.subject "")
    if strInCI "Aviso consumo por" subject then some (parse_midinero_consumption m)
    else if strInCI "Aviso recarga por" subject then some (parse_midinero_reload m)
    else if strInCI "Tu transferencia ha sido acreditada" subject then
      some (parse_midinero_transfer m)
    else none

/-! ## gmail_forwarding.py (detection only; body parsing is behind quopri) -/

/-- `is_gmail_forwarding_confirmation` (gmail_forwarding.py); the stdlib
header decoding is the `decodeHeader` parameter of the environment. -/
def isGmailForwardingConfirmation (decodeHeader : String → String)
    (from_address subject : String) : Bool :=
  let from_lower := pyLower from_address
  let subject_decoded := pyLower (decodeHeader subject)
  strIn "forwarding-noreply@google.com" from_lower &&
  (strIn "confirmación" subject_decoded || strIn "confirmation" subject_decoded) &&
  (strIn "reenvío" subject_decoded || strIn "forwarding" subject_decoded)

/-! ## The persistence model (Django ORM boundary) -/

/-- A persisted `Transaction` row with the fields the ingestion core sets. -/
structure Tx where
  id : Nat
  user : Nat
  date : Date
  description : String
  amount : Option Dec
  currency : String
  source : Option String
  comments : String
  external_id : String
  status : String
deriving Repr, DecidableEq

/-- A persisted `Stock` row. -/
structure Stock where
  id : Nat
  user : Nat
  date : Date
  symbol : String
  bought : Bool
  amount : Dec
  unitprice : Dec
  external_id : String
  transaction : Option Nat
deriving Repr, DecidableEq

/-- The dictionary stored in `PendingTransaction.payload`. -/
inductive Payload where
  | gen (p : Parsed)
  | trade (p : IbkrParsed)
deriving Repr, DecidableEq

/-- `parsed.get("external_id")` on either dictionary shape. -/
def payloadExtId : Payload → String
  | .gen p => p.external_id
  | .trade p => p.external_id

/-- A persisted `PendingTransaction` row. -/
structure Pend where
  user : Nat
  external_id : String
  payload : Payload
  reason : String
deriving Repr, DecidableEq

/-- The database: new rows are prepended; `ops` counts fallible `create`
calls and indexes the failure oracle. -/
structure DB where
  txs : List Tx
  stocks : List Stock
  pending : List Pend
  sources : List (Nat × String)
  nextId : Nat
  ops : Nat
deriving Repr, DecidableEq

/-- A `UserEmailMessage` row.  `mail` is the `mailparser` view of
`raw_eml`, `rawText` its decoded text (for the router's raw-body check) and
`gmailParse` the outcome of the quoted-printable confirmation-link
extraction (external to the embedded core). -/
structure Msg where
  user : Nat
  message_id : String
  subject : Option String
  from_address : Option String
  date : Option Date
  mail : Mail
  rawText : String
  gmailParse : Except PyErr (Option String)
  processed_at : Option Nat
  processing_error : String
  gmail_confirmation_link : Option String
deriving Repr

/-- External collaborators: address parsing and header decoding from the
stdlib, the clock, and the injected failure oracle for fallible `create`
calls (`none` = the call succeeds). -/
structure Env where
  parseaddr : String → String
  decodeHeader : String → String
  today : Date
  now : Nat
  createFail : Nat → Option PyErr

/-- `json.dumps` with the default encoder applied to a candidate payload:
`PendingTransaction.payload` is a plain `JSONField` (no custom encoder), and
the standard encoder raises `TypeError` at the first non-serializable value.
Every trade payload carries `Decimal`s; a generic payload is hit at its
`amount` key when present (it precedes the `date` key in every constructed
dictionary), else at a `datetime.date` under `date`. -/
def payloadJsonErr : Payload → Option PyErr
  | .gen p =>
    if p.amount.isSome then
      some (.other "TypeError" "Object of type Decimal is not JSON serializable")
    else if p.date_date.isSome then
      some (.other "TypeError" "Object of type date is not JSON serializable")
    else none
  | .trade _ =>
    some (.other "TypeError" "Object of type Decimal is not JSON serializable")

/-- `PendingTransaction.objects.create`: the `JSONField` serializes the
payload while building the insert, so an unserializable payload raises
before any row is written. -/
def pendingCreate (db : DB) (user : Nat) (eid : String) (pl : Payload)
    (rsn : String) : DB × Except PyErr Unit :=
  match payloadJsonErr pl with
  | some e => (db, .error e)
  | none => ({db with pending := ⟨user, eid, pl, rsn⟩ :: db.pending}, .ok ())

/-- `msg.processed_at = timezone.now(); msg.save(...)`. -/
def markProcessed (env : Env) (m : Msg) : Msg :=
  {m with processed_at := some env.now}

/-- `msg.processing_error = e; msg.processed_at = timezone.now(); msg.save(...)`. -/
def markError (env : Env) (m : Msg) (e : String) : Msg :=
  {m with processing_error := e, processed_at := some env.now}

/-- `_get_or_create_source`. -/
def getOrCreateSource (db : DB) (user : Nat) (name : Option String) :
    DB × Option String :=
  match name with
  | none => (db, none)
  | some n =>
    if n = "" then (db, none)
    else if (user, n) ∈ db.sources then (db, some n)
    else ({db with sources := (user, n) :: db.sources}, some n)

/-- `with transaction.atomic():` — an error inside the block restores the
database state from before the block. -/
def atomically {α : Type} (db0 : DB) (res : DB × Except PyErr α) :
    DB × Except PyErr α :=
  match res with
  | (db1, .ok a) => (db1, .ok a)
  | (_, .error e) => (db0, .error e)

/-- `str(exc)` (the bare exception message). -/
def PyErr.msg : PyErr → String
  | .integrity m => m
  | .other _ m => m

/-! ## email_ingest.py — the transaction materializer -/

/-- The body of the `with transaction.atomic():` block of
`_create_transaction`: source lookup plus the fallible `Tx.objects.create`. -/
def create_tx_inner (env : Env) (db : DB) (m : Msg) (p : Parsed) :
    DB × Except PyErr Tx :=
  let pr := getOrCreateSource db m.user p.source
  let db1 := pr.1
  match env.createFail db1.ops with
  | some e => (db1, .error e)
  | none =>
    let tx : Tx := {
      id := db1.nextId
      user := m.user
      date := m.date.getD env.today
      description := p.description
      amount := p.amount
      currency := pyUpper (pyOrS p.currency "")
      source := pr.2
      comments := pyOr p.comments ""
      external_id := p.external_id
      status := "confirmed"
    }
    let db2 :=
      {db1 with txs := tx :: db1.txs, nextId := db1.nextId + 1, ops := db1.ops + 1}
    (db2, .ok tx)

/-- `_create_transaction`: proactive duplicate check, then the atomic
`Transaction` creation. -/
def create_transaction (env : Env) (db : DB) (m : Msg) (p : Parsed) :
    DB × Msg × Except PyErr Nat :=
  let external_id := p.external_id
  let dup :=
    if external_id = "" then false
    else db.txs.any (fun t => t.user == m.user && t.external_id == external_id)
  if dup then
    match pendingCreate db m.user (pyOrS external_id "") (.gen p) "duplicate" with
    | (db1, .ok _) => (db1, markProcessed env m, .ok 1)
    | (db1, .error e) => (db1, m, .error e)
  else
    match atomically db (create_tx_inner env db m p) with
    | (db2, .ok _) => (db2, markProcessed env m, .ok 1)
    | (db2, .error e) => (db2, m, .error e)

/-- `_handle_duplicate`: attempt to park the payload (when one was parsed)
and mark the message processed.  The park itself goes through the
`JSONField` serialization, so an unserializable payload raises out of the
fallback (nothing in the handlers catches a `TypeError`). -/
def handle_duplicate (env : Env) (db : DB) (m : Msg) (payload : Option Payload) :
    DB × Msg × Except PyErr Nat :=
  match payload with
  | some pl =>
    match pendingCreate db m.user (pyOrS (payloadExtId pl) "") pl "duplicate" with
    | (db1, .ok _) => (db1, markProcessed env m, .ok 1)
    | (db1, .error e) => (db1, m, .error e)
  | none => (db, markProcessed env m, .ok 1)

/-- `_process_visa_alert`. -/
def process_visa_alert (env : Env) (db : DB) (m : Msg) : DB × Msg × Except PyErr Nat :=
  match parse_visa_alert m.mail with
  | .error e => (db, m, .error e)
  | .ok p =>
    let envelope_from := pyLower (env.parseaddr (pyOr m.from_address ""))
    let parsed_froms := p.from_emails.getD []
    let body := pyLower (pyOr p.raw_body "")
    let allowed := "donotreplyalertadecomprasvisa@visa.com"
    if !(envelope_from == allowed || parsed_froms.contains allowed || strIn allowed body) then
      (db, markError env m "skipped_non_visa_sender", .ok 0)
    else if !(decOptTruthy p.amount) || p.currency == "" then
      (db, markError env m "Missing amount or currency", .ok 0)
    else
      match create_transaction env db m p with
      | (db1, m1, .ok k) => (db1, m1, .ok k)
      | (db1, m1, .error (.integrity _)) =>
        handle_duplicate env db1 m1 (some (.gen p))
      | (db1, m1, .error e) => (db1, m1, .error e)

/-- `_process_chase_alert`. -/
def process_chase_alert (env : Env) (db : DB) (m : Msg) : DB × Msg × Except PyErr Nat :=
  let p := parse_chase_alert m.mail
  if !(decOptTruthy p.amount) then
    (db, markError env m "Missing amount", .ok 0)
  else
    match create_transaction env db m p with
    | (db1, m1, .ok k) => (db1, m1, .ok k)
    | (db1, m1, .error (.integrity _)) =>
      handle_duplicate env db1 m1 (some (.gen p))
    | (db1, m1, .error e) => (db1, m1, .error e)

/-- `_process_alignet_alert`. -/
def process_alignet_alert (env : Env) (db : DB) (m : Msg) : DB × Msg × Except PyErr Nat :=
  match parse_alignet_alert m.mail with
  | .error e => (db, m, .error e)
  | .ok p =>
    if !(decOptTruthy p.amount) || p.currency == "" then
      (db, markError env m "Missing amount or currency", .ok 0)
    else
      match create_transaction env db m p with
      | (db1, m1, .ok k) => (db1, m1, .ok k)
      | (db1, m1, .error (.integrity _)) =>
        handle_duplicate env db1 m1 (some (.gen p))
      | (db1, m1, .error e) => (db1, m1, .error e)

/-- `_process_midinero_alert`.  When the parsed date is truthy and
`datetime.fromisoformat` succeeds, the source assigns the resulting
`datetime.date` to `msg.date` and calls `_create_transaction`, where
`msg.date` is truthy but `msg.date.date()` raises `AttributeError` (a
`datetime.date` has no `.date`).  That call is therefore unfolded here
under that fact: the duplicate check runs first, the duplicate branch
raises `TypeError` from the payload serialization, and the fresh branch
raises `AttributeError` inside the atomic block before writing anything.
`msg.save` never includes the `date` field in `update_fields`, so the
persisted message keeps its original date either way. -/
def process_midinero_alert (env : Env) (db : DB) (m : Msg) : DB × Msg × Except PyErr Nat :=
  match parse_midinero_alert m.mail with
  | none => (db, markError env m "Not a recognized Midinero format", .ok 0)
  | some p =>
    if !(decOptTruthy p.amount) || p.currency == "" then
      (db, markError env m "Missing amount or currency", .ok 0)
    else
      let overrideDate : Option Date :=
        match p.date_str with
        | some ds => if ds = "" then none else parseIsoDate ds
        | none => none
      match overrideDate with
      | some _ =>
        let dup :=
          if p.external_id = "" then false
          else db.txs.any (fun t => t.user == m.user && t.external_id == p.external_id)
        if dup then
          match pendingCreate db m.user (pyOrS p.external_id "") (.gen p) "duplicate" with
          | (db1, .ok _) => (db1, markProcessed env m, .ok 1)
          | (db1, .error e) => (db1, m, .error e)
        else
          (db, m, .error (.other "AttributeError"
            "'datetime.date' object has no attribute 'date'"))
      | none =>
        match create_transaction env db m p with
        | (db1, m2, .ok k) => (db1, m2, .ok k)
        | (db1, m2, .error (.integrity _)) =>
          handle_duplicate env db1 m2 (some (.gen p))
        | (db1, m2, .error e) => (db1, m2, .error e)

/-- The body of the `with transaction.atomic():` block of
`_process_ibkr_trade`: the paired fallible creations of the cash
`Transaction` and the linked `Stock`. -/
def ibkr_inner (env : Env) (db : DB) (m : Msg) (p : IbkrParsed) :
    DB × Except PyErr (Tx × Stock) :=
  let tx_date := m.date.getD env.today
  let action := if p.bought then "BUY" else "SELL"
  let cash_amount := if p.bought then p.total_value else p.total_value.negate
  let pr := getOrCreateSource db m.user (some "ibkr")
  let db1 := pr.1
  match env.createFail db1.ops with
  | some e => (db1, .error e)
  | none =>
    let tx : Tx := {
      id := db1.nextId
      user := m.user
      date := tx_date
      description := action ++ " " ++ p.amount.str ++ " " ++ p.symbol ++ " @ $" ++
        p.unitprice.str
      amount := some cash_amount
      currency := "USD"
      source := pr.2
      comments := ""
      external_id := p.external_id
      status := "confirmed"
    }
    let db2 :=
      {db1 with txs := tx :: db1.txs, nextId := db1.nextId + 1, ops := db1.ops + 1}
    match env.createFail db2.ops with
    | some e => (db2, .error e)
    | none =>
      let st : Stock := {
        id := db2.nextId
        user := m.user
        date := tx_date
        symbol := p.symbol
        bought := p.bought
        amount := p.amount
        unitprice := p.unitprice
        external_id := p.external_id
        transaction := some tx.id
      }
      let db3 :=
        {db2 with stocks := st :: db2.stocks, nextId := db2.nextId + 1, ops := db2.ops + 1}
      (db3, .ok (tx, st))

/-- `_process_ibkr_trade`: proactive `Stock` duplicate check, then the
atomic paired creation of the cash `Transaction` and the `Stock` row. -/
def process_ibkr_trade (env : Env) (db : DB) (m : Msg) : DB × Msg × Except PyErr Nat :=
  match parse_ibkr_trade m.mail with
  | none => (db, markError env m "Failed to parse IBKR trade", .ok 0)
  | some p =>
    let external_id := p.external_id
    let dup :=
      if external_id = "" then false
      else db.stocks.any (fun st => st.user == m.user && st.external_id == external_id)
    if dup then
      match pendingCreate db m.user (pyOrS external_id "") (.trade p) "duplicate_stock" with
      | (db1, .ok _) => (db1, markProcessed env m, .ok 1)
      | (db1, .error e) => (db1, m, .error e)
    else
      match atomically db (ibkr_inner env db m p) with
      | (db2, .ok _) => (db2, markProcessed env m, .ok 1)
      | (db2, .error (.integrity _)) =>
        handle_duplicate env db2 m (some (.trade p))
      | (db2, .error e) => (db2, m, .error e)

/-- `_process_gmail_confirmation`: both arms mark the message processed and
return 1. -/
def process_gmail_confirmation (env : Env) (db : DB) (m : Msg) : DB × Msg × Nat :=
  match m.gmailParse with
  | .ok linkOpt =>
    let m1 :=
      match linkOpt with
      | some link => if link = "" then m else {m with gmail_confirmation_link := some link}
      | none => m
    (db, markProcessed env m1, 1)
  | .error e =>
    (db, markError env m (strTake ("Gmail forwarding error: " ++ e.msg) 500), 1)

/-! ## email_ingest.py — routing and the batch driver -/

/-- The handler selected by the `if/elif` chain of `process_new_messages`. -/
inductive Route where
  | gmail
  | chase
  | ibkr
  | visa
  | alignet
  | midinero
  | unrecognized
deriving Repr, DecidableEq

/-- `parseaddr(msg.from_address or "")[1].lower()`. -/
def envelopeFrom (env : Env) (m : Msg) : String :=
  pyLower (env.parseaddr (pyOr m.from_address ""))

/-- `(msg.subject or "").lower()`. -/
def subjectLower (m : Msg) : String := pyLower (pyOr m.subject "")

/-- The router: the ordered rule chain of `process_new_messages`, first
match wins. -/
def route (env : Env) (m : Msg) : Route :=
  let envelope_from := envelopeFrom env m
  let subject := subjectLower m
  if isGmailForwardingConfirmation env.decodeHeader envelope_from (pyOr m.subject "") then
    .gmail
  else if envelope_from == "no.reply.alerts@chase.com" &&
      (strIn "direct deposit" subject || strIn "bill payment" subject) then .chase
  else if envelope_from == "tradingassistant@interactivebrokers.com" then .ibkr
  else if strIn "donotreplyalertadecomprasvisa@visa.com" envelope_from ||
      strIn "visa" subject then .visa
  else if strIn "alignet" subject || strIn "código de seguridad" subject then .alignet
  else if envelope_from == "noreply@midinero.com.uy" || strIn "midinero" envelope_from ||
      strIn "midinero.com.uy" (pyLower m.rawText) then .midinero
  else .unrecognized

/-- One iteration of the driver loop: route, dispatch, and catch any
escaping exception by stamping a truncated error and `processed_at`. -/
def process_one (env : Env) (db : DB) (m : Msg) : DB × Msg × Nat :=
  let step : DB × Msg × Except PyErr Nat :=
    match route env m with
    | .gmail =>
      let r := process_gmail_confirmation env db m
      (r.1, r.2.1, .ok r.2.2)
    | .chase => process_chase_alert env db m
    | .ibkr => process_ibkr_trade env db m
    | .visa => process_visa_alert env db m
    | .alignet => process_alignet_alert env db m
    | .midinero => process_midinero_alert env db m
    | .unrecognized =>
      (db, markError env m ("Unrecognized sender: " ++ envelopeFrom env m), .ok 0)
  match step with
  | (db1, m1, .ok k) => (db1, m1, k)
  | (db1, m1, .error e) =>
    let m2 := {m1 with processing_error := strTake (PyErr.text e) 500, processed_at := some env.now}
    (db1, m2, 0)

/-- The driver loop over the message table: messages with `processed_at`
already set are not selected; the rest are processed in order. -/
def runBatch (env : Env) : DB → List Msg → DB × List Msg × Nat
  | db, [] => (db, [], 0)
  | db, m :: rest =>
    if m.processed_at.isSome then
      let r := runBatch env db rest
      (r.1, m :: r.2.1, r.2.2)
    else
      let s := process_one env db m
      let r := runBatch env s.1 rest
      (r.1, s.2.1 :: r.2.1, s.2.2 + r.2.2)

/-- `process_new_messages`: returns the final database, the message table,
and the processed count. -/
def process_new_messages (env : Env) (db : DB) (msgs : List Msg) :
    DB × List Msg × Nat :=
  runBatch env db msgs

/-! ## Theorems -/

/-- `pyInt` succeeds on every non-empty all-digit string. -/
theorem pyInt_isOk (s : String) (h1 : s.data ≠ [])
    (h2 : ∀ c ∈ s.data, c.isDigit = true) :
    pyInt s = .ok (natOfDigits s.data : Int) := by
  unfold pyInt
  rw [if_pos]
  exact ⟨fun he => h1 (by rw [he]), List.all_eq_true.mpr h2⟩

/-- Every character surviving the digit filter is a digit. -/
theorem filter_digits_all (l : List Char) :
    ∀ c ∈ l.filter Char.isDigit, c.isDigit = true :=
  fun _ hc => (List.mem_filter.mp hc).2

/-- C10: `_detect_card_type` is total — on every input string it returns
(never raises) exactly one of the five class labels; in particular the two
`int()` conversions are only reached on non-empty all-digit prefixes of the
digit-filtered input, where they cannot fail. -/
theorem detect_card_type_total (s : String) :
    ∃ r, detect_card_type s = .ok r ∧
      (r = "visa" ∨ r = "mastercard" ∨ r = "amex" ∨ r = "discover" ∨ r = "unknown") := by
  unfold detect_card_type
  by_cases h0 : s = "" ∨ s.length < 2
  · rw [if_pos h0]; exact ⟨"unknown", rfl, by simp⟩
  · rw [if_neg h0]
    simp only []
    set digits := String.mk (s.data.filter Char.isDigit) with hdig
    have hdigall : ∀ c ∈ digits.data, c.isDigit = true := by
      intro c hc
      exact filter_digits_all s.data c hc
    by_cases hde : digits = ""
    · rw [if_pos hde]; exact ⟨"unknown", rfl, by simp⟩
    · rw [if_neg hde]
      by_cases hv : String.mk (digits.data.take 1) = "4"
      · rw [if_pos hv]; exact ⟨"visa", rfl, by simp⟩
      · rw [if_neg hv]
        set first_two := if digits.length ≥ 2 then String.mk (digits.data.take 2) else digits
          with hft
        set first_four := if digits.length ≥ 4 then String.mk (digits.data.take 4) else digits
          with hff
        have hffall : ∀ c ∈ first_four.data, c.isDigit = true := by
          intro c hc
          rw [hff] at hc
          by_cases h4 : digits.length ≥ 4
          · rw [if_pos h4] at hc
            exact hdigall c (List.mem_of_mem_take hc)
          · rw [if_neg h4] at hc
            exact hdigall c hc
        by_cases hmc : first_two ∈ ["51", "52", "53", "54", "55"]
        · rw [if_pos hmc]; exact ⟨"mastercard", rfl, by simp⟩
        · rw [if_neg hmc]
          have hrange : ∀ g : Except PyErr (Option String),
              (g = .ok none ∨ g = .ok (some "mastercard")) →
              ∃ r, (match g with
                | .error e => .error e
                | .ok (some r) => .ok r
                | .ok none =>
                  if first_two ∈ ["34", "37"] then Except.ok "amex"
                  else if first_four = "6011" then Except.ok "discover"
                  else if first_two = "65" then Except.ok "discover"
                  else if digits.length ≥ 3 ∧
                      String.mk (digits.data.take 3) ∈
                        ["644", "645", "646", "647", "648", "649"] then
                    Except.ok "discover"
                  else if digits.length ≥ 6 then
                    match pyInt (String.mk (digits.data.take 6)) with
                    | .error e => .error e
                    | .ok v => .ok (if 622126 ≤ v ∧ v ≤ 622925 then "discover" else "unknown")
                  else Except.ok "unknown" : Except PyErr String) = .ok r ∧
              (r = "visa" ∨ r = "mastercard" ∨ r = "amex" ∨ r = "discover" ∨ r = "unknown") := by
            rintro g (rfl | rfl)
            · simp only []
              by_cases ha : first_two ∈ ["34", "37"]
              · rw [if_pos ha]; exact ⟨"amex", rfl, by simp⟩
              · rw [if_neg ha]
                by_cases hd1 : first_four = "6011"
                · rw [if_pos hd1]; exact ⟨"discover", rfl, by simp⟩
                · rw [if_neg hd1]
                  by_cases hd2 : first_two = "65"
                  · rw [if_pos hd2]; exact ⟨"discover", rfl, by simp⟩
                  · rw [if_neg hd2]
                    by_cases hd3 : digits.length ≥ 3 ∧
                        String.mk (digits.data.take 3) ∈
                          ["644", "645", "646", "647", "648", "649"]
                    · rw [if_pos hd3]; exact ⟨"discover", rfl, by simp⟩
                    · rw [if_neg hd3]
                      by_cases hd6 : digits.length ≥ 6
                      · rw [if_pos hd6]
                        have h6 : pyInt (String.mk (digits.data.take 6)) =
                            .ok (natOfDigits (digits.data.take 6) : Int) := by
                          apply pyInt_isOk
                          · intro he
                            have he2 : List.take 6 digits.data = [] := he
                            have h3 : (List.take 6 digits.data).length = 0 := by
                              rw [he2]; rfl
                            have h6a : digits.data.length ≥ 6 := hd6
                            rw [List.length_take] at h3
                            omega
                          · intro c hc
                            exact hdigall c (List.mem_of_mem_take hc)
                        by_cases hr : 622126 ≤ (natOfDigits (digits.data.take 6) : Int) ∧
                            (natOfDigits (digits.data.take 6) : Int) ≤ 622925
                        · exact ⟨"discover",
                            by rw [h6]; exact congrArg Except.ok (if_pos hr), by simp⟩
                        · exact ⟨"unknown",
                            by rw [h6]; exact congrArg Except.ok (if_neg hr), by simp⟩
                      · rw [if_neg hd6]; exact ⟨"unknown", rfl, by simp⟩
            · exact ⟨"mastercard", rfl, by simp⟩
          apply hrange
          by_cases h4 : first_four.length = 4
          · have hint : pyInt first_four = .ok (natOfDigits first_four.data : Int) := by
              apply pyInt_isOk
              · intro he
                have : first_four.data.length = 4 := h4
                rw [he] at this
                simp at this
              · exact hffall
            by_cases hr : 2221 ≤ (natOfDigits first_four.data : Int) ∧
                (natOfDigits first_four.data : Int) ≤ 2720
            · right; rw [if_pos h4, hint]; exact congrArg Except.ok (if_pos hr)
            · left; rw [if_pos h4, hint]; exact congrArg Except.ok (if_neg hr)
          · left; rw [if_neg h4]

/-- `_get_or_create_source` touches only the `sources` table. -/
theorem getOrCreateSource_fields (db : DB) (u : Nat) (n : Option String) :
    (getOrCreateSource db u n).1.txs = db.txs ∧
    (getOrCreateSource db u n).1.stocks = db.stocks ∧
    (getOrCreateSource db u n).1.pending = db.pending ∧
    (getOrCreateSource db u n).1.nextId = db.nextId ∧
    (getOrCreateSource db u n).1.ops = db.ops := by
  unfold getOrCreateSource
  cases n with
  | none => exact ⟨rfl, rfl, rfl, rfl, rfl⟩
  | some s =>
    dsimp only
    split_ifs <;> exact ⟨rfl, rfl, rfl, rfl, rfl⟩

/-- The atomic block of `_process_ibkr_trade` either creates the linked
pair or fails. -/
theorem ibkr_inner_spec (env : Env) (db : DB) (m : Msg) (p : IbkrParsed) :
    (∃ db1 tx st, ibkr_inner env db m p = (db1, .ok (tx, st)) ∧
      db1.txs = tx :: db.txs ∧ db1.stocks = st :: db.stocks ∧
      st.transaction = some tx.id) ∨
    (∃ db1 e, ibkr_inner env db m p = (db1, .error e)) := by
  unfold ibkr_inner
  dsimp only
  obtain ⟨h1, h2, h3, h4, h5⟩ := getOrCreateSource_fields db m.user (some "ibkr")
  cases hc0 : env.createFail (getOrCreateSource db m.user (some "ibkr")).1.ops with
  | some e => right; exact ⟨_, e, rfl⟩
  | none =>
    cases hc1 : env.createFail ((getOrCreateSource db m.user (some "ibkr")).1.ops + 1) with
    | some e => right; exact ⟨_, e, rfl⟩
    | none =>
      left
      refine ⟨_, _, _, rfl, ?_, ?_, rfl⟩
      · dsimp only; rw [h1]
      · dsimp only; rw [h2]

/-- C2: processing one brokerage-trade message is all-or-nothing for the
transaction table and the position table: either a new cash `Transaction`
and a new `Stock` whose `transaction` field links to it are both created
(and the message counts as handled), or — whatever error the persistence
layer injects during the paired creation — neither table changes. -/
theorem trade_pair_atomic (env : Env) (db : DB) (m : Msg) :
    (∃ tx st,
      (process_ibkr_trade env db m).1.txs = tx :: db.txs ∧
      (process_ibkr_trade env db m).1.stocks = st :: db.stocks ∧
      st.transaction = some tx.id ∧
      (process_ibkr_trade env db m).2.2 = Except.ok 1) ∨
    ((process_ibkr_trade env db m).1.txs = db.txs ∧
     (process_ibkr_trade env db m).1.stocks = db.stocks) := by
  unfold process_ibkr_trade
  cases hp : parse_ibkr_trade m.mail with
  | none => right; exact ⟨rfl, rfl⟩
  | some p =>
    dsimp only
    by_cases hdup : (if p.external_id = "" then false
        else db.stocks.any fun st => st.user == m.user && st.external_id == p.external_id) = true
    · rw [if_pos hdup]
      right; exact ⟨rfl, rfl⟩
    · rw [if_neg hdup]
      rcases ibkr_inner_spec env db m p with ⟨db1, tx, st, hin, htx, hst, hlink⟩ | ⟨db1, e, hin⟩
      · rw [hin]
        left
        exact ⟨tx, st, htx, hst, hlink, rfl⟩
      · rw [hin]
        cases e with
        | integrity msg => right; exact ⟨rfl, rfl⟩
        | other k msg => right; exact ⟨rfl, rfl⟩

/-- A string is non-empty exactly when its character list is. -/
theorem str_ne_empty_iff (s : String) : s ≠ "" ↔ s.data ≠ [] := by
  constructor
  · intro h he
    apply h
    cases s with
    | mk d => cases he; rfl
  · intro h he
    apply h
    rw [he]

/-- `a or b` is truthy when `b` is. -/
theorem pyOrS_ne_empty (a b : String) (hb : b ≠ "") : pyOrS a b ≠ "" := by
  unfold pyOrS
  split_ifs with h
  · exact hb
  · exact h

/-- `x or b` on an optional string is truthy when `b` is. -/
theorem pyOr_ne_empty (a : Option String) (b : String) (hb : b ≠ "") : pyOr a b ≠ "" := by
  unfold pyOr
  cases a with
  | none => exact hb
  | some s =>
    dsimp only
    split_ifs with h
    · exact hb
    · exact h

/-- A string whose left part is non-empty is non-empty. -/
theorem append_str_ne (s t : String) (hs : s ≠ "") : s ++ t ≠ "" := by
  rw [str_ne_empty_iff] at hs ⊢
  intro h3
  apply hs
  have h4 : s.data ++ t.data = [] := by cases s; cases t; exact h3
  exact (List.append_eq_nil.mp h4).1

/-- C9: every candidate dictionary a format parser returns carries a
non-empty `external_id`: the message id when present, otherwise a
synthesized identifier with a fixed non-empty prefix — so the
materializer's deduplication check is never skipped for lack of an
external id. -/
theorem parser_external_ids_nonempty (m : Mail) :
    (∀ p, parse_visa_alert m = .ok p → p.external_id ≠ "") ∧
    (parse_chase_alert m).external_id ≠ "" ∧
    (∀ p, parse_ibkr_trade m = some p → p.external_id ≠ "") ∧
    (∀ p, parse_alignet_alert m = .ok p → p.external_id ≠ "") ∧
    (parse_midinero_consumption m).external_id ≠ "" ∧
    (parse_midinero_reload m).external_id ≠ "" ∧
    (parse_midinero_transfer m).external_id ≠ "" := by
  refine ⟨?_, ?_, ?_, ?_, ?_, ?_, ?_⟩
  · intro p h
    unfold parse_visa_alert at h
    dsimp only at h
    cases hcur : visa_currency (extract_field (bodyTextOf m) "Moneda") with
    | error e => rw [hcur] at h; exact absurd h (by simp)
    | ok cur =>
      rw [hcur] at h
      dsimp only at h
      have h2 := (Except.ok.injEq _ _).mp h
      rw [← h2]
      refine pyOrS_ne_empty _ _ ?_
      repeat apply append_str_ne
      decide
  · unfold parse_chase_alert
    dsimp only
    refine pyOrS_ne_empty _ _ ?_
    repeat apply append_str_ne
    decide
  · intro p h
    unfold parse_ibkr_trade at h
    dsimp only at h
    cases hs : reSearch ibkrRE (pyOr m.subject "") with
    | none => rw [hs] at h; exact absurd h (by simp)
    | some caps =>
      rw [hs] at h
      dsimp only at h
      cases h1 : capGet caps 1 with
      | none => rw [h1] at h; exact absurd h (by simp)
      | some a1 =>
      rw [h1] at h
      cases h2 : capGet caps 2 with
      | none => rw [h2] at h; exact absurd h (by simp)
      | some a2 =>
      rw [h2] at h
      cases h3 : capGet caps 3 with
      | none => rw [h3] at h; exact absurd h (by simp)
      | some a3 =>
      rw [h3] at h
      cases h4 : capGet caps 4 with
      | none => rw [h4] at h; exact absurd h (by simp)
      | some a4 =>
      rw [h4] at h
      dsimp only at h
      cases hd2 : Dec.parse a2 with
      | none => rw [hd2] at h; exact absurd h (by simp)
      | some amount =>
      rw [hd2] at h
      cases hd4 : Dec.parse a4 with
      | none => rw [hd4] at h; exact absurd h (by simp)
      | some unitprice =>
      rw [hd4] at h
      dsimp only at h
      have h5 := (Option.some.injEq _ _).mp h
      rw [← h5]
      refine pyOrS_ne_empty _ _ ?_
      repeat apply append_str_ne
      decide
  · intro p h
    unfold parse_alignet_alert at h
    dsimp only at h
    set cardStep : Except PyErr String :=
      (match reSearch cardRE (bodyTextOf m) with
      | some caps =>
        match capGet caps 1, capGet caps 2 with
        | some first_four, some last_four =>
          match detect_card_type first_four with
          | .error e => .error e
          | .ok card_type => .ok (card_type ++ ":" ++ last_four)
        | _, _ => .ok "alignet"
      | none => .ok "alignet") with hcs
    cases hc : cardStep with
    | error e => rw [hc] at h; exact absurd h (by simp)
    | ok src =>
      rw [hc] at h
      dsimp only at h
      cases hlc : alignet_label_currency (extract_field (bodyTextOf m) "Moneda") with
      | error e => rw [hlc] at h; exact absurd h (by simp)
      | ok cur0 =>
        rw [hlc] at h
        dsimp only at h
        have h2 := (Except.ok.injEq _ _).mp h
        rw [← h2]
        dsimp only
        by_cases hmid : messageIdOf m = ""
        · rw [if_pos hmid]
          repeat apply append_str_ne
          decide
        · rw [if_neg hmid]
          exact hmid
  · unfold parse_midinero_consumption
    dsimp only
    refine pyOr_ne_empty _ _ ?_
    repeat apply append_str_ne
    decide
  · unfold parse_midinero_reload
    dsimp only
    refine pyOr_ne_empty _ _ ?_
    repeat apply append_str_ne
    decide
  · unfold parse_midinero_transfer
    dsimp only
    refine pyOr_ne_empty _ _ ?_
    repeat apply append_str_ne
    decide

/-- A mail exercising all four cited parsers successfully. -/
def mailW9 : Mail := {
  body := some "Comercio: Shop\nTarjeta: 1234\nMoneda: USD\nMonto: 5.00\n4111********1111\nFecha: 29/12/2025\nUYU 4307.30"
  text_plain := []
  text_html := []
  subject := some "BOUGHT 1 A @ 2"
  message_id := some "w-9"
  headerMessageId := none
  headerMessageId2 := none
  fromList := []
}

/-- `Except.getD`-style extraction used only to state witnesses. -/
def exceptOkD {ε α : Type} (x : Except ε α) (d : α) : α :=
  match x with
  | .ok a => a
  | .error _ => d

/-- An arbitrary candidate record used as extraction default. -/
def dummyParsed : Parsed :=
  ⟨"", none, "", none, none, "", none, none, none, none, none, none⟩

/-- An arbitrary trade record used as extraction default. -/
def dummyIbkr : IbkrParsed :=
  ⟨"", false, ⟨false, 0, 0⟩, ⟨false, 0, 0⟩, ⟨false, 0, 0⟩, "", "", [], ""⟩

/-- Witness for C9 at a concrete mail: all four cited parsers succeed and
their candidates carry non-empty external ids. -/
theorem parser_external_ids_nonempty_witness :
    (exceptOkD (parse_visa_alert mailW9) dummyParsed).external_id ≠ "" ∧
    (parse_chase_alert mailW9).external_id ≠ "" ∧
    ((parse_ibkr_trade mailW9).getD dummyIbkr).external_id ≠ "" ∧
    (exceptOkD (parse_alignet_alert mailW9) dummyParsed).external_id ≠ "" := by
  obtain ⟨h1, h2, h3, h4, _, _, _⟩ := parser_external_ids_nonempty mailW9
  exact ⟨h1 _ (by rfl), h2, h3 _ (by rfl), h4 _ (by rfl)⟩

/-- The card-alert routing condition as the specification words it: the
envelope sender equals the card-network address, or the subject or the raw
message body contains that address.  Stated from the spec for comparison
with the implemented router. -/
def specVisaRouteCond (env : Env) (m : Msg) : Prop :=
  envelopeFrom env m = "donotreplyalertadecomprasvisa@visa.com" ∨
  strIn "donotreplyalertadecomprasvisa@visa.com" (subjectLower m) = true ∨
  strIn "donotreplyalertadecomprasvisa@visa.com" (pyLower m.rawText) = true

/-- C7 (amended): the router evaluates its rule chain top-to-bottom with
first match winning, and selects the card-alert parser exactly when none of
the three higher-priority rules matched and either the card-network address
occurs as a substring of the envelope sender or the subject contains the
word "visa". -/
theorem route_visa_characterization (env : Env) (m : Msg) :
    route env m = Route.visa ↔
      (¬(isGmailForwardingConfirmation env.decodeHeader (envelopeFrom env m)
          (pyOr m.subject "") = true) ∧
       ¬(envelopeFrom env m = "no.reply.alerts@chase.com" ∧
         (strIn "direct deposit" (subjectLower m) = true ∨
          strIn "bill payment" (subjectLower m) = true)) ∧
       envelopeFrom env m ≠ "tradingassistant@interactivebrokers.com" ∧
       (strIn "donotreplyalertadecomprasvisa@visa.com" (envelopeFrom env m) = true ∨
        strIn "visa" (subjectLower m) = true)) := by
  unfold route
  dsimp only
  by_cases h1 : isGmailForwardingConfirmation env.decodeHeader (envelopeFrom env m)
      (pyOr m.subject "") = true
  · rw [if_pos h1]
    simp [h1]
  · rw [if_neg h1]
    by_cases h2 : (envelopeFrom env m == "no.reply.alerts@chase.com" &&
        (strIn "direct deposit" (subjectLower m) ||
         strIn "bill payment" (subjectLower m))) = true
    · rw [if_pos h2]
      simp only [beq_iff_eq, Bool.and_eq_true, Bool.or_eq_true] at h2
      simp [h2]
    · rw [if_neg h2]
      by_cases h3 : (envelopeFrom env m == "tradingassistant@interactivebrokers.com") = true
      · rw [if_pos h3]
        simp only [beq_iff_eq] at h3
        simp [h3]
      · rw [if_neg h3]
        simp only [beq_iff_eq, Bool.and_eq_true, Bool.or_eq_true] at h2 h3
        by_cases h4 : (strIn "donotreplyalertadecomprasvisa@visa.com" (envelopeFrom env m) ||
            strIn "visa" (subjectLower m)) = true
        · rw [if_pos h4]
          simp only [Bool.or_eq_true] at h4
          simp only [true_iff]
          refine ⟨h1, ?_, h3, h4⟩
          intro hcon
          exact h2 ⟨hcon.1, hcon.2⟩
        · rw [if_neg h4]
          simp only [Bool.or_eq_true] at h4
          constructor
          · intro hcon
            split_ifs at hcon
          · intro hcon
            exact absurd hcon.2.2.2 h4

/-- The router environment for the counterexample (stdlib collaborators are
the identity on the plain strings involved). -/
def envC7 : Env := {
  parseaddr := fun s => s
  decodeHeader := fun s => s
  today := ⟨2025, 1, 1⟩
  now := 0
  createFail := fun _ => none
}

/-- An empty mail record (the router never reads it). -/
def emptyMail : Mail := ⟨none, [], [], none, none, none, none, []⟩

/-- A message from an unrelated sender whose subject merely mentions the
word "visa". -/
def msgC7 : Msg := {
  user := 1
  message_id := "c7"
  subject := some "Your visa statement"
  from_address := some "shop@example.com"
  date := none
  mail := emptyMail
  rawText := "hello"
  gmailParse := .ok none
  processed_at := none
  processing_error := ""
  gmail_confirmation_link := none
}

/-- C7 counterexample: the implemented router selects the card-alert parser
for a message although its envelope sender is not the card-network address
and neither the subject nor the body contains that address — the claim's
condition for selecting the card parser does not hold. -/
theorem route_visa_spec_counterexample :
    route envC7 msgC7 = Route.visa ∧ ¬ specVisaRouteCond envC7 msgC7 := by
  constructor
  · decide
  · unfold specVisaRouteCond
    intro hcon
    rcases hcon with h | h | h
    · exact absurd h (by decide)
    · exact absurd h (by decide)
    · exact absurd h (by decide)

/-- Does any stored field of a transaction row mention the given text? -/
def txMentions (t : Tx) (s : String) : Bool :=
  strIn s t.description || strIn s t.currency || strIn s (pyOr t.source "") ||
  strIn s t.comments || strIn s t.external_id || strIn s t.status

/-- A truthy optional decimal is present. -/
theorem decOptTruthy_isSome (a : Option Dec) (h : decOptTruthy a = true) :
    a.isSome = true := by
  cases a with
  | none => cases h
  | some d => rfl

/-- Parking a payload that carries a `Decimal` amount raises `TypeError`
before any row is written. -/
theorem pendingCreate_gen_amount (db : DB) (u : Nat) (eid : String) (p : Parsed)
    (rsn : String) (hs : p.amount.isSome = true) :
    pendingCreate db u eid (.gen p) rsn =
      (db, .error (.other "TypeError"
        "Object of type Decimal is not JSON serializable")) := by
  unfold pendingCreate payloadJsonErr
  dsimp only
  rw [if_pos hs]

/-- The atomic block of `_create_transaction` never touches the pending
table. -/
theorem create_tx_inner_pending (env : Env) (db : DB) (m : Msg) (p : Parsed) :
    (create_tx_inner env db m p).1.pending = db.pending := by
  unfold create_tx_inner
  dsimp only
  obtain ⟨_, _, h3, _, _⟩ := getOrCreateSource_fields db m.user p.source
  cases hc : env.createFail (getOrCreateSource db m.user p.source).1.ops with
  | some e => exact h3
  | none => exact h3

/-- `_create_transaction` on a `Decimal`-bearing candidate never adds a
pending row: the duplicate park raises `TypeError` first, and the fresh
path writes only to the transaction table. -/
theorem create_transaction_pending_unchanged (env : Env) (db : DB) (m : Msg)
    (p : Parsed) (hs : p.amount.isSome = true) :
    (create_transaction env db m p).1.pending = db.pending := by
  unfold create_transaction
  dsimp only
  by_cases hdup : (if p.external_id = "" then false
      else db.txs.any fun t => t.user == m.user && t.external_id == p.external_id) = true
  · rw [if_pos hdup,
      pendingCreate_gen_amount db m.user (pyOrS p.external_id "") p "duplicate" hs]
  · rw [if_neg hdup]
    generalize hin : create_tx_inner env db m p = pr
    rcases pr with ⟨db2, r⟩
    cases r with
    | ok tx =>
      have h3 := create_tx_inner_pending env db m p
      rw [hin] at h3
      exact h3
    | error e => rfl

/-- The duplicate fallback on a `Decimal`-bearing candidate never adds a
pending row either. -/
theorem handle_duplicate_gen_pending (env : Env) (db : DB) (m : Msg)
    (p : Parsed) (hs : p.amount.isSome = true) :
    (handle_duplicate env db m (some (.gen p))).1.pending = db.pending := by
  unfold handle_duplicate
  dsimp only
  rw [pendingCreate_gen_amount db m.user (pyOrS (payloadExtId (.gen p)) "") p
    "duplicate" hs]

/-- No run of the alignet handler ever adds a pending row: every candidate
that reaches the persistence step has a truthy `Decimal` amount, so every
park attempt raises `TypeError` before writing. -/
theorem alignet_pending_invariant (env : Env) (db : DB) (m : Msg) :
    (process_alignet_alert env db m).1.pending = db.pending := by
  unfold process_alignet_alert
  generalize hp : parse_alignet_alert m.mail = pres
  cases pres with
  | error e => rfl
  | ok p =>
    dsimp only
    by_cases hg : (!decOptTruthy p.amount || p.currency == "") = true
    · rw [if_pos hg]
    · rw [if_neg hg]
      have hamt : p.amount.isSome = true := by
        apply decOptTruthy_isSome
        by_contra hno
        rw [Bool.not_eq_true] at hno
        exact hg (by rw [hno]; rfl)
      have hct := create_transaction_pending_unchanged env db m p hamt
      generalize hc : create_transaction env db m p = cres at hct ⊢
      rcases cres with ⟨db1, m1, r⟩
      cases r with
      | ok k => exact hct
      | error e =>
        cases e with
        | integrity s =>
          have hh := handle_duplicate_gen_pending env db1 m1 p hamt
          rw [hh]
          exact hct
        | other a b => exact hct

/-- Environment for the alignet duplicate scenario. -/
def envC6 : Env := {
  parseaddr := fun s => s
  decodeHeader := fun s => s
  today := ⟨2025, 12, 30⟩
  now := 7
  createFail := fun _ => none
}

/-- A point-of-sale alert whose body carries the security code line
`Clave: 9876` alongside the masked card number. -/
def mailC6 : Mail := {
  body := some "Compra realizada\n4111********1111\nSUPER SHOP\nClave: 9876\nFecha: 29/12/2025\nUYU 4307.30"
  text_plain := []
  text_html := []
  subject := some "Código de seguridad"
  message_id := some "al-dup"
  headerMessageId := none
  headerMessageId2 := none
  fromList := [("", "payme@alignet.com")]
}

/-- The message wrapping `mailC6`. -/
def msgC6 : Msg := {
  user := 1
  message_id := "al-dup"
  subject := some "Código de seguridad"
  from_address := some "payme@alignet.com"
  date := none
  mail := mailC6
  rawText := ""
  gmailParse := .ok none
  processed_at := none
  processing_error := ""
  gmail_confirmation_link := none
}

/-- A database that already holds a `Transaction` with the message's
external id for the same owner, so the alert takes the duplicate path. -/
def dbC6 : DB := {
  txs := [⟨50, 1, ⟨2025, 12, 28⟩, "earlier", some ⟨false, 430730, -2⟩, "UYU", none, "",
    "al-dup", "confirmed"⟩]
  stocks := []
  pending := []
  sources := []
  nextId := 51
  ops := 0
}

/-- Empty database for the fresh alignet run. -/
def dbC6f : DB := ⟨[], [], [], [], 60, 0⟩

/-- The same alert under a fresh message id. -/
def msgC6f : Msg := {msgC6 with
  message_id := "al-f"
  mail := {mailC6 with message_id := some "al-f"}}

/-- C6: the point-of-sale security code is never placed in a persisted
field.  (i) The candidate's `source` built from the card-number match
carries only the detected card type and the last four digits.  (ii) No run
of the alignet handler ever adds a `PendingTransaction` row — every payload
that reaches a park attempt carries its `Decimal` amount, so the
`JSONField` serialization raises `TypeError` before the row is written —
hence no security code can sit in a stored duplicate payload.  (iii) On the
claim's alert against a fresh database, the one created transaction has no
field mentioning the code `9876` or the `Clave` line, and the message is
stamped clean.  (iv) On the duplicate path nothing at all is persisted —
no pending row, no transaction — and the error text the driver stamps onto
the message is free of the code. -/
theorem alignet_security_code_never_persisted :
    (∀ m caps f4 l4 ct p,
      reSearch cardRE (bodyTextOf m) = some caps →
      capGet caps 1 = some f4 →
      capGet caps 2 = some l4 →
      detect_card_type f4 = .ok ct →
      parse_alignet_alert m = .ok p →
      p.source = some (ct ++ ":" ++ l4)) ∧
    (∀ env db m, (process_alignet_alert env db m).1.pending = db.pending) ∧
    ((process_alignet_alert envC6 dbC6f msgC6f).1.txs.all
        (fun t => !(txMentions t "9876") && !(txMentions t "Clave")) = true ∧
     (process_alignet_alert envC6 dbC6f msgC6f).1.txs.length = 1 ∧
     (process_alignet_alert envC6 dbC6f msgC6f).1.pending = [] ∧
     (process_alignet_alert envC6 dbC6f msgC6f).2.1.processing_error = "" ∧
     (process_alignet_alert envC6 dbC6f msgC6f).2.2 = .ok 1) ∧
    ((process_alignet_alert envC6 dbC6 msgC6).1.txs = dbC6.txs ∧
     (process_alignet_alert envC6 dbC6 msgC6).1.pending = [] ∧
     (process_alignet_alert envC6 dbC6 msgC6).2.2 =
       .error (.other "TypeError"
         "Object of type Decimal is not JSON serializable") ∧
     (process_one envC6 dbC6 msgC6).2.1.processing_error =
       "TypeError: Object of type Decimal is not JSON serializable" ∧
     strIn "9876" (process_one envC6 dbC6 msgC6).2.1.processing_error = false ∧
     strIn "Clave" (process_one envC6 dbC6 msgC6).2.1.processing_error = false ∧
     (process_one envC6 dbC6 msgC6).1.pending = [] ∧
     (process_one envC6 dbC6 msgC6).2.2 = 0) := by
  refine ⟨?_, alignet_pending_invariant, ?_, ?_⟩
  · intro m caps f4 l4 ct p hre h1 h2 hct hp
    unfold parse_alignet_alert at hp
    dsimp only at hp
    rw [hre] at hp
    dsimp only at hp
    rw [h1, h2] at hp
    dsimp only at hp
    rw [hct] at hp
    dsimp only at hp
    cases hlc : alignet_label_currency (extract_field (bodyTextOf m) "Moneda") with
    | error e => rw [hlc] at hp; cases hp
    | ok cur0 =>
      rw [hlc] at hp
      dsimp only at hp
      have h5 := (Except.ok.injEq _ _).mp hp
      rw [← h5]
  · exact ⟨by decide, by decide, by rfl, by rfl, by rfl⟩
  · exact ⟨by decide, by rfl, by rfl, by decide, by decide, by decide, by rfl, by rfl⟩

/-- Witness for C6: on the concrete alert the candidate's source is exactly
`visa:1111`, and the duplicate run leaves the pending table unchanged. -/
theorem alignet_security_code_never_persisted_witness :
    (exceptOkD (parse_alignet_alert mailC6) dummyParsed).source = some "visa:1111" ∧
    (process_alignet_alert envC6 dbC6 msgC6).1.pending = dbC6.pending := by
  obtain ⟨h1, h2, _, _⟩ := alignet_security_code_never_persisted
  constructor
  · exact h1 mailC6 ((reSearch cardRE (bodyTextOf mailC6)).getD []) "4111" "1111" "visa"
      (exceptOkD (parse_alignet_alert mailC6) dummyParsed)
      (by rfl) (by decide) (by decide) (by rfl) (by rfl)
  · exact h2 envC6 dbC6 msgC6

/-- `x or ""` on a present string is the string itself. -/
theorem pyOr_some_empty (c : String) : pyOr (some c) "" = c := by
  unfold pyOr
  dsimp only
  split_ifs with h
  · exact h.symm
  · rfl

/-- C4: whenever the card-alert currency is neither USD nor UYU and the
`Monto` field carries an approximate-USD annotation whose two numbers
convert to decimals, the parser forces the currency to USD, takes the
approximated value as the amount, and records the original value together
with the original currency in the comment. -/
theorem visa_approx_usd (m : Mail) (mon mr w g1 g2 : String) (ws : List String)
    (d1 d2 : Dec)
    (hmon : extract_field (bodyTextOf m) "Moneda" = some mon)
    (hsplit : pySplitWs mon = w :: ws)
    (hcur : pyUpper (strReplace w "<br>" "") ≠ "USD" ∧
      pyUpper (strReplace w "<br>" "") ≠ "UYU")
    (hmr : extract_field (bodyTextOf m) "Monto" = some mr)
    (hmr0 : mr ≠ "")
    (happrox : approxSearch mr = some (g1, g2))
    (hd1 : Dec.parse (strReplace g1 "," ".") = some d1)
    (hd2 : Dec.parse (strReplace g2 "," ".") = some d2) :
    ∃ p, parse_visa_alert m = .ok p ∧
      p.currency = "USD" ∧ p.amount = some d2 ∧
      p.comments = some ("Original: " ++ d1.str ++ " " ++
        pyUpper (strReplace w "<br>" "")) := by
  have hmon0 : mon ≠ "" := by
    intro he
    rw [he] at hsplit
    have hnil : pySplitWs "" = [] := by decide
    rw [hnil] at hsplit
    cases hsplit
  have hcur0 : visa_currency (some mon) = .ok (pyUpper (strReplace w "<br>" "")) := by
    unfold visa_currency
    have hor : pyOr (some mon) "" = mon := by
      unfold pyOr
      dsimp only
      rw [if_neg hmon0]
    rw [hor, hsplit]
  have hamt : visa_amount (some mr) (pyUpper (strReplace w "<br>" "")) =
      (some d2, some ("Original: " ++ d1.str ++ " " ++
        pyUpper (strReplace w "<br>" "")), "USD") := by
    unfold visa_amount
    dsimp only
    rw [if_neg hmr0, happrox]
    dsimp only
    rw [if_pos hcur, hd1, hd2]
  unfold parse_visa_alert
  dsimp only
  rw [hmon, hmr, hcur0]
  dsimp only
  rw [hamt]
  dsimp only
  refine ⟨_, rfl, rfl, rfl, ?_⟩
  dsimp only
  rw [pyOr_some_empty]

/-- The concrete card alert of the claim: amount
`4.99 (aproximadamente 6.05 USD)` in currency `EUR`. -/
def mailC4 : Mail := {
  body := some "Comercio: Shop\nMoneda: EUR\nMonto: 4.99 (aproximadamente 6.05 USD)"
  text_plain := []
  text_html := []
  subject := some "Alerta de compra"
  message_id := some "c4"
  headerMessageId := none
  headerMessageId2 := none
  fromList := []
}

/-- Witness for C4: on the claim's concrete alert the candidate has
currency USD, amount 6.05, and comment `Original: 4.99 EUR`. -/
theorem visa_approx_usd_witness :
    ∃ p, parse_visa_alert mailC4 = .ok p ∧ p.currency = "USD" ∧
      p.amount = some ⟨false, 605, -2⟩ ∧ p.comments = some "Original: 4.99 EUR" := by
  obtain ⟨p, h1, h2, h3, h4⟩ := visa_approx_usd mailC4 "EUR"
    "4.99 (aproximadamente 6.05 USD)" "EUR" "4.99" "6.05" ([] : List String)
    ⟨false, 499, -2⟩ ⟨false, 605, -2⟩
    (by decide) (by decide) (by decide) (by decide) (by decide) (by decide)
    (by decide) (by decide)
  refine ⟨p, h1, h2, h3, ?_⟩
  rw [h4]
  decide

/-- When both injected creations succeed, the atomic trade block creates the
cash transaction and the linked position record with the parsed fields. -/
theorem ibkr_inner_success (env : Env) (db : DB) (m : Msg) (p : IbkrParsed)
    (hc0 : env.createFail (getOrCreateSource db m.user (some "ibkr")).1.ops = none)
    (hc1 : env.createFail ((getOrCreateSource db m.user (some "ibkr")).1.ops + 1) = none) :
    ∃ tx st db3, ibkr_inner env db m p = (db3, .ok (tx, st)) ∧
      db3.txs = tx :: db.txs ∧ db3.stocks = st :: db.stocks ∧
      tx.amount = some (if p.bought then p.total_value else p.total_value.negate) ∧
      tx.currency = "USD" ∧ tx.external_id = p.external_id ∧ tx.user = m.user ∧
      st.symbol = p.symbol ∧ st.amount = p.amount ∧ st.unitprice = p.unitprice ∧
      st.external_id = p.external_id ∧ st.user = m.user ∧
      st.transaction = some tx.id := by
  unfold ibkr_inner
  dsimp only
  rw [hc0, hc1]
  obtain ⟨h1, h2, _, _, _⟩ := getOrCreateSource_fields db m.user (some "ibkr")
  refine ⟨_, _, _, rfl, ?_, ?_, rfl, rfl, rfl, rfl, rfl, rfl, rfl, rfl, rfl, rfl⟩
  · dsimp only; rw [h1]
  · dsimp only; rw [h2]

/-- The trade subject of the claim. -/
def mailC5 : Mail := {
  body := none
  text_plain := []
  text_html := []
  subject := some "BOUGHT 10 AAPL @ 150.50"
  message_id := some "c5"
  headerMessageId := none
  headerMessageId2 := none
  fromList := []
}

/-- C5: (i) a subject that does not match the `ACTION QUANTITY SYMBOL @
PRICE` pattern parses to `None`; (ii) the subject `BOUGHT 10 AAPL @ 150.50`
parses to a buy of 10 AAPL at 150.50 with total value `quantity × price` =
1505.00; (iii) materializing any parsed trade (absent duplicates and
injected failures) creates a `Transaction` whose amount is the total value,
positive for a buy and negated for a sell, plus a linked `Stock` with the
parsed symbol, quantity and unit price. -/
theorem ibkr_trade_parse_and_materialize :
    (∀ m, reSearch ibkrRE (pyOr m.subject "") = none → parse_ibkr_trade m = none) ∧
    (parse_ibkr_trade mailC5 = some ⟨"AAPL", true, ⟨false, 10, 0⟩, ⟨false, 15050, -2⟩,
      ⟨false, 150500, -2⟩, "c5", "BOUGHT 10 AAPL @ 150.50", [], "c5"⟩ ∧
      Dec.mul ⟨false, 10, 0⟩ ⟨false, 15050, -2⟩ = ⟨false, 150500, -2⟩ ∧
      Dec.toRat ⟨false, 150500, -2⟩ = 1505) ∧
    (∀ env db m p, parse_ibkr_trade m.mail = some p →
      ¬((if p.external_id = "" then false
         else db.stocks.any fun st => st.user == m.user && st.external_id == p.external_id)
        = true) →
      env.createFail (getOrCreateSource db m.user (some "ibkr")).1.ops = none →
      env.createFail ((getOrCreateSource db m.user (some "ibkr")).1.ops + 1) = none →
      ∃ tx st,
        (process_ibkr_trade env db m).1.txs = tx :: db.txs ∧
        tx.amount = some (if p.bought then p.total_value else p.total_value.negate) ∧
        tx.currency = "USD" ∧
        (process_ibkr_trade env db m).1.stocks = st :: db.stocks ∧
        st.symbol = p.symbol ∧ st.amount = p.amount ∧ st.unitprice = p.unitprice ∧
        st.transaction = some tx.id ∧
        (process_ibkr_trade env db m).2.2 = .ok 1) := by
  refine ⟨?_, ⟨by decide, by decide, by norm_num [Dec.toRat, Int.toNat]⟩, ?_⟩
  · intro m hs
    unfold parse_ibkr_trade
    dsimp only
    rw [hs]
  · intro env db m p hp hdup hc0 hc1
    unfold process_ibkr_trade
    rw [hp]
    dsimp only
    rw [if_neg hdup]
    obtain ⟨tx, st, db3, hin, htx, hst, hamt, hcur, _, _, hsym, hsam, hsup, _, _, hlink⟩ :=
      ibkr_inner_success env db m p hc0 hc1
    rw [hin]
    exact ⟨tx, st, htx, hamt, hcur, hst, hsym, hsam, hsup, hlink, rfl⟩

/-- Environment for the C5 witness run. -/
def envC5 : Env := {
  parseaddr := fun s => s
  decodeHeader := fun s => s
  today := ⟨2025, 6, 1⟩
  now := 3
  createFail := fun _ => none
}

/-- Empty database for the C5 witness run. -/
def dbC5 : DB := ⟨[], [], [], [], 100, 0⟩

/-- The message wrapping `mailC5`. -/
def msgC5 : Msg := {
  user := 1
  message_id := "c5"
  subject := some "BOUGHT 10 AAPL @ 150.50"
  from_address := some "tradingassistant@interactivebrokers.com"
  date := none
  mail := mailC5
  rawText := ""
  gmailParse := .ok none
  processed_at := none
  processing_error := ""
  gmail_confirmation_link := none
}

/-- A mail whose subject matches no trade pattern. -/
def mailC5none : Mail := {
  body := none
  text_plain := []
  text_html := []
  subject := some "Hello there"
  message_id := some "c5n"
  headerMessageId := none
  headerMessageId2 := none
  fromList := []
}

/-- Witness for C5: the non-matching subject yields `None`, and the
concrete buy creates a +1505.00 transaction with a linked AAPL stock row. -/
theorem ibkr_trade_parse_and_materialize_witness :
    parse_ibkr_trade mailC5none = none ∧
    (∃ tx st,
      (process_ibkr_trade envC5 dbC5 msgC5).1.txs = tx :: dbC5.txs ∧
      tx.amount = some ⟨false, 150500, -2⟩ ∧
      (process_ibkr_trade envC5 dbC5 msgC5).1.stocks = st :: dbC5.stocks ∧
      st.symbol = "AAPL" ∧ st.amount = ⟨false, 10, 0⟩ ∧
      st.unitprice = ⟨false, 15050, -2⟩ ∧ st.transaction = some tx.id ∧
      (process_ibkr_trade envC5 dbC5 msgC5).2.2 = .ok 1) := by
  obtain ⟨ha, ⟨hb, _, _⟩, hc⟩ := ibkr_trade_parse_and_materialize
  constructor
  · exact ha mailC5none (by decide)
  · obtain ⟨tx, st, h1, h2, h3, h4, h5, h6, h7, h8, h9⟩ :=
      hc envC5 dbC5 msgC5 _ hb (by decide) (by decide) (by decide)
    exact ⟨tx, st, h1, h2, h4, h5, h6, h7, h8, h9⟩

/-- C8: in the mobile-wallet reload parser, the extracted total is parsed
with `.` as thousands separator and `,` as decimal separator and then
negated (a reload is income), and the extracted currency word is mapped to
its 3-letter code: total `1.234,56` with label `Pesos Uruguayos` yields
amount −1234.56 and currency `UYU`. -/
theorem midinero_reload_amount_currency (m : Mail)
    (htot : reGroupStrip totalPesosRE 1 (midiHtml m) = some "1.234,56")
    (hmon : reGroupStrip monedaHtmlRE 1 (midiHtml m) = some "Pesos Uruguayos") :
    (parse_midinero_reload m).amount = some ⟨true, 123456, -2⟩ ∧
    (parse_midinero_reload m).currency = "UYU" ∧
    parse_amount "1.234,56" = some ⟨false, 123456, -2⟩ ∧
    Dec.negate ⟨false, 123456, -2⟩ = ⟨true, 123456, -2⟩ ∧
    normalize_currency "Pesos Uruguayos" = "UYU" ∧
    Dec.toRat ⟨true, 123456, -2⟩ = -1234.56 := by
  refine ⟨?_, ?_, by decide, by decide, by decide, ?_⟩
  · unfold parse_midinero_reload
    dsimp only
    rw [htot]
    decide
  · unfold parse_midinero_reload
    dsimp only
    rw [hmon]
    decide
  · norm_num [Dec.toRat, Int.toNat]

/-- The concrete reload alert of the claim. -/
def mailC8 : Mail := {
  body := some "aviso de noreply@midinero.com.uy"
  text_plain := []
  text_html := ["Moneda<b>Pesos Uruguayos</b>Total Pesos$ 1.234,56"]
  subject := some "Aviso recarga por compra"
  message_id := some "c8"
  headerMessageId := none
  headerMessageId2 := none
  fromList := [("", "noreply@midinero.com.uy")]
}

/-- Witness for C8 at the concrete reload alert. -/
theorem midinero_reload_amount_currency_witness :
    (parse_midinero_reload mailC8).amount = some ⟨true, 123456, -2⟩ ∧
    (parse_midinero_reload mailC8).currency = "UYU" := by
  obtain ⟨h1, h2, _, _, _, _⟩ :=
    midinero_reload_amount_currency mailC8 (by decide) (by decide)
  exact ⟨h1, h2⟩

/-- The atomic block of `_create_transaction` when the injected creation
succeeds. -/
theorem create_tx_inner_success (env : Env) (db : DB) (m : Msg) (p : Parsed)
    (hc : env.createFail (getOrCreateSource db m.user p.source).1.ops = none) :
    ∃ tx db2, create_tx_inner env db m p = (db2, .ok tx) ∧
      db2.txs = tx :: db.txs ∧ db2.stocks = db.stocks ∧ db2.pending = db.pending ∧
      tx.user = m.user ∧ tx.external_id = p.external_id ∧
      tx.description = p.description ∧ tx.amount = p.amount ∧
      tx.currency = pyUpper (pyOrS p.currency "") ∧
      tx.comments = pyOr p.comments "" ∧ tx.status = "confirmed" := by
  unfold create_tx_inner
  dsimp only
  rw [hc]
  obtain ⟨h1, h2, h3, _, _⟩ := getOrCreateSource_fields db m.user p.source
  refine ⟨_, _, rfl, ?_, ?_, ?_, rfl, rfl, rfl, rfl, rfl, rfl, rfl⟩
  · dsimp only; rw [h1]
  · dsimp only; rw [h2]
  · dsimp only; rw [h3]

/-- `_create_transaction` on a fresh external id with a successful injected
creation: one new transaction carrying the candidate's fields. -/
theorem create_transaction_ok (env : Env) (db : DB) (m : Msg) (p : Parsed)
    (hnodup : ¬((if p.external_id = "" then false
      else db.txs.any fun t => t.user == m.user && t.external_id == p.external_id)
      = true))
    (hc : env.createFail (getOrCreateSource db m.user p.source).1.ops = none) :
    ∃ tx, (create_transaction env db m p).1.txs = tx :: db.txs ∧
      (create_transaction env db m p).1.stocks = db.stocks ∧
      (create_transaction env db m p).1.pending = db.pending ∧
      tx.user = m.user ∧ tx.external_id = p.external_id ∧
      (create_transaction env db m p).2.1.processed_at = some env.now ∧
      (create_transaction env db m p).2.2 = .ok 1 := by
  unfold create_transaction
  dsimp only
  rw [if_neg hnodup]
  obtain ⟨tx, db2, hin, htxs, hstk, hpnd, hu, he, _, _, _, _, _⟩ :=
    create_tx_inner_success env db m p hc
  rw [hin]
  exact ⟨tx, htxs, hstk, hpnd, hu, he, rfl, rfl⟩

/-- Environment for the deduplication witness runs. -/
def envC1 : Env := {
  parseaddr := fun s => s
  decodeHeader := fun s => s
  today := ⟨2025, 1, 2⟩
  now := 9
  createFail := fun _ => none
}

/-- First fresh candidate with external id `d2`. -/
def pC1a : Parsed :=
  ⟨"first", none, "USD", some ⟨false, 100, -2⟩, none, "d2", none, none, none, none,
    none, none⟩

/-- Second candidate with the same external id `d2`. -/
def pC1b : Parsed :=
  ⟨"second", none, "USD", some ⟨false, 200, -2⟩, none, "d2", none, none, none, none,
    none, none⟩

/-- First message of owner 1. -/
def mC1a : Msg := {
  user := 1
  message_id := "m-a"
  subject := none
  from_address := none
  date := none
  mail := emptyMail
  rawText := ""
  gmailParse := .ok none
  processed_at := none
  processing_error := ""
  gmail_confirmation_link := none
}

/-- Second message of the same owner. -/
def mC1b : Msg := {mC1a with message_id := "m-b"}

/-- Empty database for the two-message run. -/
def dbC1 : DB := ⟨[], [], [], [], 30, 0⟩

/-- A trade confirmation whose external id already labels a stock row. -/
def mailC1ib : Mail := {
  body := none
  text_plain := []
  text_html := []
  subject := some "SOLD 2 MSFT @ 10.50"
  message_id := some "ib-dup"
  headerMessageId := none
  headerMessageId2 := none
  fromList := []
}

/-- The message wrapping `mailC1ib`, sent from the brokerage address so
the router dispatches it to the trade handler. -/
def mC1ib : Msg := {mC1a with
  message_id := "ib-dup"
  mail := mailC1ib
  from_address := some "tradingassistant@interactivebrokers.com"}

/-- Database already holding a stock with external id `ib-dup`. -/
def dbC1ib : DB := {
  txs := []
  stocks := [⟨20, 1, ⟨2025, 1, 1⟩, "MSFT", true, ⟨false, 1, 0⟩, ⟨false, 1, 0⟩,
    "ib-dup", none⟩]
  pending := []
  sources := []
  nextId := 21
  ops := 0
}

/-- The database after the first of the two same-id runs. -/
def dbC1after : DB := (create_transaction envC1 dbC1 mC1a pC1a).1

/-- C1 names the intended deduplication behaviour — park the duplicate
payload as a `PendingTransaction`, mark the message processed, return 1 —
but the code cannot deliver it: the parked payload always carries its
`Decimal` amount, and `PendingTransaction.payload` is a default-encoder
`JSONField`, so `json.dumps` raises `TypeError` inside
`PendingTransaction.objects.create` before any row is written.  On two
same-id messages the first creates its transaction and is handled, while
the second reaches the duplicate branch and raises: nothing is parked, the
handler stamps nothing and returns no count.  The trade variant (reason
`duplicate_stock`, a payload of three `Decimal`s) raises identically, and
at the driver the duplicate message is stamped with the `TypeError` text
and contributes 0 to the handled count instead of the claimed 1. -/
theorem duplicate_park_raises_typeerror :
    ((create_transaction envC1 dbC1 mC1a pC1a).2.2 = .ok 1 ∧
     (create_transaction envC1 dbC1 mC1a pC1a).1.txs.length = 1 ∧
     (create_transaction envC1 dbC1 mC1a pC1a).2.1.processed_at = some 9) ∧
    ((create_transaction envC1 dbC1after mC1b pC1b).2.2 =
       .error (.other "TypeError"
         "Object of type Decimal is not JSON serializable") ∧
     (create_transaction envC1 dbC1after mC1b pC1b).1.pending = [] ∧
     (create_transaction envC1 dbC1after mC1b pC1b).1.txs.length = 1 ∧
     (create_transaction envC1 dbC1after mC1b pC1b).2.1.processed_at = none) ∧
    ((process_ibkr_trade envC1 dbC1ib mC1ib).2.2 =
       .error (.other "TypeError"
         "Object of type Decimal is not JSON serializable") ∧
     (process_ibkr_trade envC1 dbC1ib mC1ib).1.pending = [] ∧
     (process_ibkr_trade envC1 dbC1ib mC1ib).2.1.processed_at = none) ∧
    ((process_one envC1 dbC1ib mC1ib).2.1.processing_error =
       "TypeError: Object of type Decimal is not JSON serializable" ∧
     (process_one envC1 dbC1ib mC1ib).2.1.processed_at = some 9 ∧
     (process_one envC1 dbC1ib mC1ib).2.2 = 0 ∧
     (process_one envC1 dbC1ib mC1ib).1.pending = []) := by
  refine ⟨⟨by rfl, by rfl, by rfl⟩, ⟨by rfl, by rfl, by rfl, by rfl⟩,
    ⟨by rfl, by rfl, by rfl⟩, ⟨by rfl, by rfl, by rfl, by rfl⟩⟩

/-- When `_create_transaction` returns normally it has stamped
`processed_at`. -/
theorem create_transaction_processed (env : Env) (db : DB) (m : Msg) (p : Parsed)
    (k : Nat) (h : (create_transaction env db m p).2.2 = .ok k) :
    (create_transaction env db m p).2.1.processed_at = some env.now := by
  unfold create_transaction at h ⊢
  dsimp only at h ⊢
  by_cases hdup : (if p.external_id = "" then false
      else db.txs.any fun t => t.user == m.user && t.external_id == p.external_id) = true
  · rw [if_pos hdup] at h ⊢
    generalize hpc : pendingCreate db m.user (pyOrS p.external_id "") (.gen p)
      "duplicate" = pc at h ⊢
    rcases pc with ⟨db1, r⟩
    cases r with
    | ok u => rfl
    | error e => cases h
  · rw [if_neg hdup] at h ⊢
    generalize atomically db (create_tx_inner env db m p) = pr at h ⊢
    rcases pr with ⟨db2, r⟩
    cases r with
    | ok tx => rfl
    | error e => cases h

/-- When `_handle_duplicate` returns normally it has stamped
`processed_at` (a failing park raises instead). -/
theorem handle_duplicate_processed (env : Env) (db : DB) (m : Msg)
    (pl : Option Payload) (k : Nat)
    (h : (handle_duplicate env db m pl).2.2 = .ok k) :
    (handle_duplicate env db m pl).2.1.processed_at = some env.now := by
  unfold handle_duplicate at h ⊢
  cases pl with
  | none => rfl
  | some pl =>
    dsimp only at h ⊢
    generalize hpc : pendingCreate db m.user (pyOrS (payloadExtId pl) "") pl
      "duplicate" = pc at h ⊢
    rcases pc with ⟨db1, r⟩
    cases r with
    | ok u => rfl
    | error e => cases h

/-- `_process_visa_alert` stamps `processed_at` on every normal return. -/
theorem process_visa_alert_processed (env : Env) (db : DB) (m : Msg) (k : Nat)
    (h : (process_visa_alert env db m).2.2 = .ok k) :
    (process_visa_alert env db m).2.1.processed_at = some env.now := by
  unfold process_visa_alert at h ⊢
  generalize hp : parse_visa_alert m.mail = pres at h ⊢
  cases pres with
  | error e => cases h
  | ok p =>
    dsimp only at h ⊢
    split_ifs at h ⊢
    · rfl
    · rfl
    · generalize hct : create_transaction env db m p = cres at h ⊢
      rcases cres with ⟨db1, m1, r⟩
      cases r with
      | ok k2 =>
        have h3 := create_transaction_processed env db m p k2 (by rw [hct])
        rw [hct] at h3
        exact h3
      | error e =>
        cases e with
        | integrity s => exact handle_duplicate_processed env db1 m1 _ k h
        | other a b => cases h

/-- `_process_chase_alert` stamps `processed_at` on every normal return. -/
theorem process_chase_alert_processed (env : Env) (db : DB) (m : Msg) (k : Nat)
    (h : (process_chase_alert env db m).2.2 = .ok k) :
    (process_chase_alert env db m).2.1.processed_at = some env.now := by
  unfold process_chase_alert at h ⊢
  dsimp only at h ⊢
  split_ifs at h ⊢
  · rfl
  · generalize hct : create_transaction env db m (parse_chase_alert m.mail) = cres at h ⊢
    rcases cres with ⟨db1, m1, r⟩
    cases r with
    | ok k2 =>
      have h3 := create_transaction_processed env db m (parse_chase_alert m.mail) k2
        (by rw [hct])
      rw [hct] at h3
      exact h3
    | error e =>
      cases e with
      | integrity s => exact handle_duplicate_processed env db1 m1 _ k h
      | other a b => cases h

/-- `_process_alignet_alert` stamps `processed_at` on every normal return. -/
theorem process_alignet_alert_processed (env : Env) (db : DB) (m : Msg) (k : Nat)
    (h : (process_alignet_alert env db m).2.2 = .ok k) :
    (process_alignet_alert env db m).2.1.processed_at = some env.now := by
  unfold process_alignet_alert at h ⊢
  generalize hp : parse_alignet_alert m.mail = pres at h ⊢
  cases pres with
  | error e => cases h
  | ok p =>
    dsimp only at h ⊢
    split_ifs at h ⊢
    · rfl
    · generalize hct : create_transaction env db m p = cres at h ⊢
      rcases cres with ⟨db1, m1, r⟩
      cases r with
      | ok k2 =>
        have h3 := create_transaction_processed env db m p k2 (by rw [hct])
        rw [hct] at h3
        exact h3
      | error e =>
        cases e with
        | integrity s => exact handle_duplicate_processed env db1 m1 _ k h
        | other a b => cases h

/-- `_process_midinero_alert` stamps `processed_at` on every normal return. -/
theorem process_midinero_alert_processed (env : Env) (db : DB) (m : Msg) (k : Nat)
    (h : (process_midinero_alert env db m).2.2 = .ok k) :
    (process_midinero_alert env db m).2.1.processed_at = some env.now := by
  unfold process_midinero_alert at h ⊢
  generalize hp : parse_midinero_alert m.mail = pres at h ⊢
  cases pres with
  | none => rfl
  | some p =>
    dsimp only at h ⊢
    by_cases hg : (!decOptTruthy p.amount || p.currency == "") = true
    · rw [if_pos hg]
      rfl
    · rw [if_neg hg] at h ⊢
      generalize hod : (match p.date_str with
        | some ds => if ds = "" then none else parseIsoDate ds
        | none => none) = od at h ⊢
      cases od with
      | some d =>
        dsimp only at h ⊢
        by_cases hdup : (if p.external_id = "" then false
            else db.txs.any fun t => t.user == m.user && t.external_id == p.external_id)
            = true
        · rw [if_pos hdup] at h ⊢
          generalize hpc : pendingCreate db m.user (pyOrS p.external_id "") (.gen p)
            "duplicate" = pc at h ⊢
          rcases pc with ⟨db1, r⟩
          cases r with
          | ok u => rfl
          | error e => cases h
        · rw [if_neg hdup] at h ⊢
          cases h
      | none =>
        generalize hct : create_transaction env db m p = cres at h ⊢
        rcases cres with ⟨db1, m1, r⟩
        cases r with
        | ok k2 =>
          have h3 := create_transaction_processed env db m p k2 (by rw [hct])
          rw [hct] at h3
          exact h3
        | error e =>
          cases e with
          | integrity s => exact handle_duplicate_processed env db1 m1 _ k h
          | other a b => cases h

/-- `_process_ibkr_trade` stamps `processed_at` on every normal return. -/
theorem process_ibkr_trade_processed (env : Env) (db : DB) (m : Msg) (k : Nat)
    (h : (process_ibkr_trade env db m).2.2 = .ok k) :
    (process_ibkr_trade env db m).2.1.processed_at = some env.now := by
  unfold process_ibkr_trade at h ⊢
  generalize hp : parse_ibkr_trade m.mail = pres at h ⊢
  cases pres with
  | none => rfl
  | some p =>
    dsimp only at h ⊢
    by_cases hdup : (if p.external_id = "" then false
        else db.stocks.any fun st => st.user == m.user && st.external_id == p.external_id)
        = true
    · rw [if_pos hdup] at h ⊢
      generalize hpc : pendingCreate db m.user (pyOrS p.external_id "") (.trade p)
        "duplicate_stock" = pc at h ⊢
      rcases pc with ⟨db1, r⟩
      cases r with
      | ok u => rfl
      | error e => cases h
    · rw [if_neg hdup] at h ⊢
      generalize hin : atomically db (ibkr_inner env db m p) = pr at h ⊢
      rcases pr with ⟨db2, r⟩
      cases r with
      | ok pair => rfl
      | error e =>
        cases e with
        | integrity s => exact handle_duplicate_processed env db2 m _ k h
        | other a b => cases h

/-- `_process_gmail_confirmation` stamps `processed_at` on both arms. -/
theorem process_gmail_confirmation_processed (env : Env) (db : DB) (m : Msg) :
    (process_gmail_confirmation env db m).2.1.processed_at = some env.now := by
  unfold process_gmail_confirmation
  cases m.gmailParse with
  | ok linkOpt => rfl
  | error e => rfl

/-- One driver iteration always stamps `processed_at`: on success, on every
validation failure, on the duplicate paths, on the unrecognized-sender
path, and when the driver's exception handler catches an escaping error. -/
theorem process_one_processed (env : Env) (db : DB) (m : Msg) :
    (process_one env db m).2.1.processed_at = some env.now := by
  unfold process_one
  dsimp only
  cases hr : route env m with
  | gmail =>
    generalize hg : process_gmail_confirmation env db m = g
    have h2 := process_gmail_confirmation_processed env db m
    rw [hg] at h2
    exact h2
  | chase =>
    generalize hh : process_chase_alert env db m = res
    rcases res with ⟨db1, m1, r⟩
    cases r with
    | ok k =>
      have h2 := process_chase_alert_processed env db m k (by rw [hh])
      rw [hh] at h2
      exact h2
    | error e => rfl
  | ibkr =>
    generalize hh : process_ibkr_trade env db m = res
    rcases res with ⟨db1, m1, r⟩
    cases r with
    | ok k =>
      have h2 := process_ibkr_trade_processed env db m k (by rw [hh])
      rw [hh] at h2
      exact h2
    | error e => rfl
  | visa =>
    generalize hh : process_visa_alert env db m = res
    rcases res with ⟨db1, m1, r⟩
    cases r with
    | ok k =>
      have h2 := process_visa_alert_processed env db m k (by rw [hh])
      rw [hh] at h2
      exact h2
    | error e => rfl
  | alignet =>
    generalize hh : process_alignet_alert env db m = res
    rcases res with ⟨db1, m1, r⟩
    cases r with
    | ok k =>
      have h2 := process_alignet_alert_processed env db m k (by rw [hh])
      rw [hh] at h2
      exact h2
    | error e => rfl
  | midinero =>
    generalize hh : process_midinero_alert env db m = res
    rcases res with ⟨db1, m1, r⟩
    cases r with
    | ok k =>
      have h2 := process_midinero_alert_processed env db m k (by rw [hh])
      rw [hh] at h2
      exact h2
    | error e => rfl
  | unrecognized => rfl

/-- C3: the batch driver selects exactly the messages whose `processed_at`
is null — an already-processed message is returned untouched — and every
selected message leaves the run with `processed_at` stamped (set once, in
this run, to the driver's clock), whichever of the success, validation
failure, duplicate, unrecognized-sender or unexpected-exception paths it
took. -/
theorem batch_driver_marks_processed (env : Env) (db : DB) (msgs : List Msg) :
    List.Forall₂
      (fun m m' =>
        (m.processed_at.isSome = true → m' = m) ∧
        (m.processed_at = none → m'.processed_at = some env.now))
      msgs (process_new_messages env db msgs).2.1 := by
  unfold process_new_messages
  induction msgs generalizing db with
  | nil => exact List.Forall₂.nil
  | cons m rest ih =>
    unfold runBatch
    dsimp only
    by_cases hp : m.processed_at.isSome = true
    · rw [if_pos hp]
      refine List.Forall₂.cons ⟨fun _ => rfl, fun hn => ?_⟩ (ih db)
      rw [hn] at hp
      cases hp
    · rw [if_neg hp]
      exact List.Forall₂.cons
        ⟨fun hs => absurd hs hp, fun _ => process_one_processed env db m⟩
        (ih (process_one env db m).1)
